import Mathlib

set_option autoImplicit false
set_option maxRecDepth 8000
set_option maxHeartbeats 1000000

namespace SdCard

/-- The ten protocol states of the simulated SD card, one constructor per
SD_STATE enumerator in sd.h. -/
inductive SdState
  | BOOT
  | SPI
  | SPI_ACMD
  | IDLE
  | IDLE_ACMD
  | CMD_RESPONSE
  | READ_BLOCK
  | WRITE_STBT
  | WRITE_LISTEN
  | WRITE_CRC
  deriving DecidableEq

open SdState

/-- A C array store into one cell of a byte buffer modelled as a function. -/
def upd (f : Nat → Nat) (i v : Nat) : Nat → Nat := fun j => if j = i then v else f j

/-- The sd_t structure from sd.h. The mmapped image (mass) is a byte map
indexed by offset, and head is kept as a byte offset into mass, mirroring
the pointer head = mass + offset of the C code. The avr irq handle is not
part of the protocol state and is omitted. -/
structure Sd where
  state : SdState
  after_send_state : SdState
  cs : Bool
  enforce_crc : Bool
  cmd : Nat → Nat
  cmd_idx : Nat
  send : Nat → Nat
  send_idx : Nat
  send_len : Nat
  mass : Nat → Nat
  capacity : Nat
  crc16 : Nat
  crc16_fst : Bool
  head : Nat
  bytes_xfrd : Nat
  multiple_block : Bool

/-- The CRC-16 lookup table crc16_table from sd.c. -/
def crc16_table : List Nat := [
  0x0000, 0xC0C1, 0xC181, 0x0140, 0xC301, 0x03C0, 0x0280, 0xC241,
  0xC601, 0x06C0, 0x0780, 0xC741, 0x0500, 0xC5C1, 0xC481, 0x0440,
  0xCC01, 0x0CC0, 0x0D80, 0xCD41, 0x0F00, 0xCFC1, 0xCE81, 0x0E40,
  0x0A00, 0xCAC1, 0xCB81, 0x0B40, 0xC901, 0x09C0, 0x0880, 0xC841,
  0xD801, 0x18C0, 0x1980, 0xD941, 0x1B00, 0xDBC1, 0xDA81, 0x1A40,
  0x1E00, 0xDEC1, 0xDF81, 0x1F40, 0xDD01, 0x1DC0, 0x1C80, 0xDC41,
  0x1400, 0xD4C1, 0xD581, 0x1540, 0xD701, 0x17C0, 0x1680, 0xD641,
  0xD201, 0x12C0, 0x1380, 0xD341, 0x1100, 0xD1C1, 0xD081, 0x1040,
  0xF001, 0x30C0, 0x3180, 0xF141, 0x3300, 0xF3C1, 0xF281, 0x3240,
  0x3600, 0xF6C1, 0xF781, 0x3740, 0xF501, 0x35C0, 0x3480, 0xF441,
  0x3C00, 0xFCC1, 0xFD81, 0x3D40, 0xFF01, 0x3FC0, 0x3E80, 0xFE41,
  0xFA01, 0x3AC0, 0x3B80, 0xFB41, 0x3900, 0xF9C1, 0xF881, 0x3840,
  0x2800, 0xE8C1, 0xE981, 0x2940, 0xEB01, 0x2BC0, 0x2A80, 0xEA41,
  0xEE01, 0x2EC0, 0x2F80, 0xEF41, 0x2D00, 0xEDC1, 0xEC81, 0x2C40,
  0xE401, 0x24C0, 0x2580, 0xE541, 0x2700, 0xE7C1, 0xE681, 0x2640,
  0x2200, 0xE2C1, 0xE381, 0x2340, 0xE101, 0x21C0, 0x2080, 0xE041,
  0xA001, 0x60C0, 0x6180, 0xA141, 0x6300, 0xA3C1, 0xA281, 0x6240,
  0x6600, 0xA6C1, 0xA781, 0x6740, 0xA501, 0x65C0, 0x6480, 0xA441,
  0x6C00, 0xACC1, 0xAD81, 0x6D40, 0xAF01, 0x6FC0, 0x6E80, 0xAE41,
  0xAA01, 0x6AC0, 0x6B80, 0xAB41, 0x6900, 0xA9C1, 0xA881, 0x6840,
  0x7800, 0xB8C1, 0xB981, 0x7940, 0xBB01, 0x7BC0, 0x7A80, 0xBA41,
  0xBE01, 0x7EC0, 0x7F80, 0xBF41, 0x7D00, 0xBDC1, 0xBC81, 0x7C40,
  0xB401, 0x74C0, 0x7580, 0xB541, 0x7700, 0xB7C1, 0xB681, 0x7640,
  0x7200, 0xB2C1, 0xB381, 0x7340, 0xB101, 0x71C0, 0x7080, 0xB041,
  0x5000, 0x90C1, 0x9181, 0x5140, 0x9301, 0x53C0, 0x5280, 0x9241,
  0x9601, 0x56C0, 0x5780, 0x9741, 0x5500, 0x95C1, 0x9481, 0x5440,
  0x9C01, 0x5CC0, 0x5D80, 0x9D41, 0x5F00, 0x9FC1, 0x9E81, 0x5E40,
  0x5A00, 0x9AC1, 0x9B81, 0x5B40, 0x9901, 0x59C0, 0x5880, 0x9841,
  0x8801, 0x48C0, 0x4980, 0x8941, 0x4B00, 0x8BC1, 0x8A81, 0x4A40,
  0x4E00, 0x8EC1, 0x8F81, 0x4F40, 0x8D01, 0x4DC0, 0x4C80, 0x8C41,
  0x4400, 0x84C1, 0x8581, 0x4540, 0x8701, 0x47C0, 0x4680, 0x8641,
  0x8201, 0x42C0, 0x4380, 0x8341, 0x4100, 0x81C1, 0x8081, 0x4040]

/-- crc16_byte from sd.c: crc = (crc >> 8) ^ crc16_table[(crc ^ data) & 0xff].
The store into the unsigned short accumulator truncates to 16 bits. -/
def crc16_byte (crc data : Nat) : Nat :=
  ((crc >>> 8) ^^^ crc16_table.getD ((crc ^^^ data) &&& 0xff) 0) % 65536

/-- sd_reset from sd.c: clears the framing cursors and returns to BOOT; cs and
the read/write related fields are deliberately left alone. -/
def sd_reset (sd : Sd) : Sd :=
  { sd with enforce_crc := false, cmd_idx := 0, send_idx := 0, send_len := 0,
            state := BOOT }

/-- enqueue_r1_inner from sd.c: one response byte in the outbound buffer. -/
def enqueue_r1_inner (sd : Sd) (b : Nat) : Sd :=
  { sd with send := upd sd.send 0 b, send_len := 1, state := CMD_RESPONSE }

/-- enqueue_r2 from sd.c: two zero bytes. -/
def enqueue_r2 (sd : Sd) : Sd :=
  { sd with send := upd (upd sd.send 0 0x00) 1 0x00, send_len := 2,
            state := CMD_RESPONSE }

/-- enqueue_r3 from sd.c: an R1 byte followed by the four OCR bytes. -/
def enqueue_r3 (sd : Sd) : Sd :=
  let sd1 := enqueue_r1_inner sd 0x00
  { sd1 with send := upd (upd (upd (upd sd1.send 1 0x81) 2 0xFF) 3 0x00) 4 0x00,
             send_len := 5, state := CMD_RESPONSE }

/-- enqueue_crc16 from sd.c: the CRC-16 trailer, high byte then low byte. -/
def enqueue_crc16 (sd : Sd) : Sd :=
  { sd with send := upd (upd sd.send 0 (sd.crc16 >>> 8)) 1 (sd.crc16 &&& 0xFF),
            send_len := 2, state := CMD_RESPONSE }

/-- The command index parsed in enqueue_response: cmd[0] & 0b00111111. -/
def command_index (sd : Sd) : Nat := sd.cmd 0 &&& 0x3F

/-- The big-endian 32-bit command argument parsed in enqueue_response. -/
def command_arg (sd : Sd) : Nat :=
  sd.cmd 1 * 16777216 + sd.cmd 2 * 65536 + sd.cmd 3 * 256 + sd.cmd 4

/-- The C expression capacity - BLOCK_SIZE, evaluated in size_t arithmetic:
subtraction of 512 wraps modulo 2^64 when capacity < 512. -/
def capacity_minus_block (c : Nat) : Nat :=
  (c + 18446744073709551104) % 18446744073709551616

/-- enqueue_response from sd.c: dispatch of a completed 6-byte command frame. -/
def enqueue_response (sd0 : Sd) : Sd :=
  let sd := { sd0 with after_send_state := sd0.state, send_idx := 0 }
  let ci := command_index sd
  let arg := command_arg sd
  if sd.state = BOOT ∧ ci ≠ 0 then enqueue_r1_inner sd 0x04
  else if sd.state = SPI then
    if ci = 55 then enqueue_r1_inner { sd with after_send_state := SPI_ACMD } 0x01
    else enqueue_r1_inner sd 0x04
  else if sd.state = SPI_ACMD then
    if ci = 41 then enqueue_r1_inner { sd with after_send_state := IDLE } 0x00
    else enqueue_r1_inner sd 0x04
  else if sd.state ≠ IDLE_ACMD then
    if ci = 0 then
      enqueue_r1_inner { sd_reset sd with after_send_state := SPI } 0x01
    else if ci = 13 then
      enqueue_r2 sd
    else if ci = 17 ∨ ci = 18 then
      if arg > capacity_minus_block sd.capacity then enqueue_r1_inner sd 0x20
      else
        { sd with head := arg, bytes_xfrd := 0, crc16 := 0xFFFF,
                  multiple_block := ci == 18, after_send_state := READ_BLOCK,
                  send := upd (upd sd.send 0 0x00) 1 0xFE, send_len := 2,
                  state := CMD_RESPONSE }
    else if ci = 24 ∨ ci = 25 then
      if arg > capacity_minus_block sd.capacity then enqueue_r1_inner sd 0x20
      else
        enqueue_r1_inner
          { sd with after_send_state := WRITE_STBT, head := arg, bytes_xfrd := 0,
                    crc16 := 0xFFFF, multiple_block := ci == 25 } 0x00
    else if ci = 55 then
      { enqueue_r1_inner sd 0x00 with after_send_state := IDLE_ACMD }
    else if ci = 58 then
      enqueue_r3 sd
    else
      enqueue_r1_inner sd 0x04
  else
    enqueue_r1_inner { sd with state := IDLE } 0x04

/-- send_byte from sd.c: compute the outgoing MISO byte and its state change. -/
def send_byte (sd : Sd) : Nat × Sd :=
  match sd.state with
  | READ_BLOCK =>
    let sd1 := { sd with crc16 := crc16_byte sd.crc16 (sd.mass sd.head),
                         bytes_xfrd := sd.bytes_xfrd + 1 }
    let sd2 := if sd1.bytes_xfrd = 512 then enqueue_crc16 sd1 else sd1
    (sd2.mass sd2.head, { sd2 with head := sd2.head + 1 })
  | WRITE_CRC => (0x05, sd)
  | CMD_RESPONSE =>
    let r := sd.send sd.send_idx
    let sd1 := { sd with send_idx := sd.send_idx + 1 }
    (r, if sd1.send_idx = sd1.send_len then
          { sd1 with state := sd1.after_send_state, after_send_state := IDLE,
                     send_idx := 0 }
        else sd1)
  | _ => (0xFF, sd)

/-- accept_byte from sd.c: ingest one MOSI byte. The second component models
the extra MISO byte raised by error_reset on a framing error. -/
def accept_byte (sd : Sd) (b : Nat) : Sd × Option Nat :=
  match sd.state with
  | WRITE_STBT =>
    (if b = 0xFE then { sd with state := WRITE_LISTEN } else sd, none)
  | WRITE_LISTEN =>
    let sd1 := { sd with mass := upd sd.mass sd.head b, head := sd.head + 1,
                         crc16 := crc16_byte sd.crc16 b,
                         bytes_xfrd := sd.bytes_xfrd + 1 }
    (if sd1.bytes_xfrd = 512 then { sd1 with crc16_fst := true, state := WRITE_CRC }
     else sd1, none)
  | WRITE_CRC =>
    let expected := if sd.crc16_fst then sd.crc16 &&& 0xFF else sd.crc16 >>> 8
    let sd1 := { sd with after_send_state := IDLE }
    let sd2 :=
      if expected = b ∨ sd1.enforce_crc = false then
        if sd1.crc16_fst = false then enqueue_r1_inner sd1 0x05 else sd1
      else enqueue_r1_inner sd1 0x0b
    ({ sd2 with crc16_fst := false }, none)
  | CMD_RESPONSE =>
    if b ≠ 0xFF then (sd_reset sd, some 0x00) else (sd, none)
  | _ =>
    if b ≠ 0xFF ∨ sd.cmd_idx ≠ 0 then
      let sd1 := { sd with cmd := upd sd.cmd sd.cmd_idx b,
                           cmd_idx := sd.cmd_idx + 1 }
      (if sd1.cmd_idx = 6 then enqueue_response { sd1 with cmd_idx := 0 } else sd1,
       none)
    else (sd, none)

/-- spi_hook from sd.c: ignored while deselected; otherwise the outgoing byte
is asserted first, then the incoming byte (masked to 8 bits) is ingested.
The first component lists the bytes raised on MISO during the event. -/
def spi_hook (sd : Sd) (value : Nat) : List Nat × Sd :=
  if sd.cs = false then ([], sd)
  else
    let p := send_byte sd
    let q := accept_byte p.2 (value &&& 0xFF)
    (p.1 :: q.2.toList, q.1)

/-- cs_hook from sd.c: cs = !value. -/
def cs_hook (sd : Sd) (value : Nat) : Sd :=
  { sd with cs := value == 0 }

/-- The card produced by sd_init on a zero-initialized sd_t (the test harness
declares the struct as a global): capacity and mass are bound to the image,
cs is cleared and sd_reset is applied; all other fields are zero. -/
def sd_fresh (m : Nat → Nat) (cap : Nat) : Sd :=
  sd_reset
    { state := BOOT, after_send_state := BOOT, cs := false, enforce_crc := false,
      cmd := fun _ => 0, cmd_idx := 0, send := fun _ => 0, send_idx := 0,
      send_len := 0, mass := m, capacity := cap, crc16 := 0, crc16_fst := false,
      head := 0, bytes_xfrd := 0, multiple_block := false }

/-- sd_init from sd.c with the two IO outcomes abstracted: open of the image
can fail, and mmap can fail; the file size becomes the capacity. The function
performs no further checks before wiring the card up and resetting it. -/
def sd_init (openOk mmapOk : Bool) (fileSize : Nat) (m : Nat → Nat) : Option Sd :=
  if openOk = false then none
  else if mmapOk = false then none
  else some (sd_fresh m fileSize)

/-- Run a list of SPI transfer events, concatenating all MISO output. -/
def runSpi : Sd → List Nat → List Nat × Sd
  | sd, [] => ([], sd)
  | sd, b :: bs =>
    let p := spi_hook sd b
    let q := runSpi p.2 bs
    (p.1 ++ q.1, q.2)

/-- An external event: an SPI byte transfer or a CS level change. -/
inductive SdEvent
  | spi (value : Nat)
  | cs (value : Nat)

/-- Apply one external event. -/
def sd_event (sd : Sd) (e : SdEvent) : Sd :=
  match e with
  | .spi v => (spi_hook sd v).2
  | .cs v => cs_hook sd v

/-- Apply a list of external events in order. -/
def runEvents (sd : Sd) : List SdEvent → Sd
  | [] => sd
  | e :: es => runEvents (sd_event sd e) es

/-- Cumulative effect of the WRITE_LISTEN stores: write the bytes of a list
at consecutive offsets. -/
def store_list (m : Nat → Nat) (h : Nat) : List Nat → Nat → Nat
  | [] => m
  | b :: bs => store_list (upd m h b) (h + 1) bs

def read_bytes (m : Nat → Nat) (h n : Nat) : List Nat :=
  (List.range n).map (fun i => m (h + i))

def cmd_frame (i a c : Nat) : List Nat :=
  [64 + i, a / 16777216 % 256, a / 65536 % 256, a / 256 % 256, a % 256, c]

def roundtrip_events (A : Nat) (B : List Nat) (w1 w2 c1 c2 : Nat) : List Nat :=
  cmd_frame 24 A w1 ++ [0xFF] ++ [0xFE] ++ B ++ [c1] ++ [c2] ++ [0xFF] ++
  cmd_frame 17 A w2 ++ [0xFF] ++ [0xFF] ++ List.replicate 512 0xFF ++
  [0xFF] ++ [0xFF]

def mkCard (st : SdState) : Sd :=
  { state := st, after_send_state := IDLE, cs := true, enforce_crc := false,
    cmd := fun _ => 0, cmd_idx := 0, send := fun _ => 0, send_idx := 0,
    send_len := 0, mass := fun _ => 0, capacity := 1024, crc16 := 0xFFFF,
    crc16_fst := false, head := 0, bytes_xfrd := 0, multiple_block := false }

def crcCard : Sd :=
  { mkCard WRITE_CRC with enforce_crc := true, crc16 := 0x1234, crc16_fst := true }

def addrCard : Sd :=
  { mkCard IDLE with cmd := upd (upd (fun _ => 0) 0 0x51) 1 0xFF }

def bootCard1024 : Sd := cs_hook (sd_fresh (fun _ => 0) 1024) 0

def activeXfer (st : SdState) : Prop :=
  st = READ_BLOCK ∨ st = WRITE_STBT ∨ st = WRITE_LISTEN

def Inv (sd : Sd) : Prop :=
  512 ≤ sd.capacity ∧ sd.capacity < 18446744073709551616 ∧
  sd.send_len ≤ 6 ∧
  (sd.state = CMD_RESPONSE → sd.send_idx < sd.send_len) ∧
  (sd.state ≠ CMD_RESPONSE → sd.send_idx = 0) ∧
  sd.cmd_idx ≤ 5 ∧
  sd.bytes_xfrd ≤ 512 ∧
  sd.head ≤ sd.capacity ∧
  sd.enforce_crc = false ∧
  sd.after_send_state ≠ CMD_RESPONSE ∧
  sd.after_send_state ≠ WRITE_LISTEN ∧
  sd.after_send_state ≠ WRITE_CRC ∧
  ((activeXfer sd.state ∨ (sd.state = CMD_RESPONSE ∧ activeXfer sd.after_send_state)) →
     sd.bytes_xfrd < 512 ∧ sd.head + (512 - sd.bytes_xfrd) ≤ sd.capacity) ∧
  ((sd.state = READ_BLOCK ∨ sd.state = WRITE_STBT ∨ sd.state = WRITE_LISTEN ∨
    sd.state = WRITE_CRC) → sd.after_send_state = IDLE)

def small_image_events : List SdEvent :=
  SdEvent.cs 0 ::
  ([0x40, 0x00, 0x00, 0x00, 0x00, 0x95, 0xFF,
    0x77, 0x00, 0x00, 0x00, 0x00, 0x65, 0xFF,
    0x69, 0x40, 0x00, 0x00, 0x00, 0x77, 0xFF,
    0x51, 0x00, 0x00, 0x10, 0x00, 0x00].map SdEvent.spi)

@[simp] theorem upd_same (f : Nat → Nat) (i v : Nat) : upd f i v i = v := by
  simp [upd]

@[simp] theorem upd_apply (f : Nat → Nat) (i v j : Nat) :
    upd f i v j = if j = i then v else f j := rfl

theorem land_255_eq_mod (n : Nat) : n &&& 255 = n % 256 :=
  Nat.and_pow_two_sub_one_eq_mod n 8

theorem land_255_of_lt {n : Nat} (h : n < 256) : n &&& 255 = n := by
  rw [land_255_eq_mod]; omega

theorem capacity_minus_block_eq {c : Nat} (h1 : 512 ≤ c)
    (h2 : c < 18446744073709551616) : capacity_minus_block c = c - 512 := by
  unfold capacity_minus_block; omega

theorem runSpi_cons (sd : Sd) (b : Nat) (bs : List Nat) :
    runSpi sd (b :: bs) =
      ((spi_hook sd b).1 ++ (runSpi (spi_hook sd b).2 bs).1,
       (runSpi (spi_hook sd b).2 bs).2) := rfl

theorem runSpi_append (sd : Sd) (xs ys : List Nat) :
    runSpi sd (xs ++ ys) =
      ((runSpi sd xs).1 ++ (runSpi (runSpi sd xs).2 ys).1,
       (runSpi (runSpi sd xs).2 ys).2) := by
  induction xs generalizing sd with
  | nil => simp [runSpi]
  | cons b bs ih => simp [runSpi_cons, ih, List.append_assoc]

theorem store_list_apply (bs : List Nat) (m : Nat → Nat) (h i : Nat) :
    store_list m h bs i =
      if h ≤ i ∧ i < h + bs.length then bs.getD (i - h) 0 else m i := by
  induction bs generalizing m h with
  | nil =>
    rw [store_list]
    split
    · rename_i hc; simp only [List.length_nil, Nat.add_zero] at hc; omega
    · rfl
  | cons b bs ih =>
    rw [store_list, ih]
    simp only [List.length_cons]
    by_cases hi : i = h
    · subst hi
      rw [if_neg (by omega), if_pos (by omega), upd_same]
      have e0 : i - i = 0 := by omega
      rw [e0, List.getD_cons_zero]
    · by_cases hin : h + 1 ≤ i ∧ i < h + 1 + bs.length
      · rw [if_pos hin, if_pos (by omega)]
        have e1 : i - h = i - (h + 1) + 1 := by omega
        rw [e1, List.getD_cons_succ]
      · rw [if_neg hin, if_neg (by omega)]
        simp [upd, hi]

theorem map_range_getD (B : List Nat) :
    (List.range B.length).map (fun i => B.getD i 0) = B := by
  induction B with
  | nil => simp
  | cons b bs ih =>
    rw [List.length_cons, List.range_succ_eq_map, List.map_cons, List.map_map]
    have hc : (fun i => (b :: bs).getD i 0) ∘ Nat.succ = fun i => bs.getD i 0 := by
      funext i; simp
    rw [hc, ih, List.getD_cons_zero]

theorem spi_step_default (sd : Sd) (b : Nat) (hcs : sd.cs = true)
    (hst : sd.state = BOOT ∨ sd.state = SPI ∨ sd.state = SPI_ACMD ∨
           sd.state = IDLE ∨ sd.state = IDLE_ACMD)
    (hb : b < 256) (hcond : b ≠ 0xFF ∨ sd.cmd_idx ≠ 0)
    (hfull : sd.cmd_idx + 1 ≠ 6) :
    spi_hook sd b =
      ([0xFF], { sd with cmd := upd sd.cmd sd.cmd_idx b,
                         cmd_idx := sd.cmd_idx + 1 }) := by
  rcases hst with h | h | h | h | h <;>
    simp [spi_hook, hcs, send_byte, accept_byte, h, land_255_of_lt hb,
          hcond, hfull]

theorem spi_step_dispatch (sd : Sd) (b : Nat) (hcs : sd.cs = true)
    (hst : sd.state = BOOT ∨ sd.state = SPI ∨ sd.state = SPI_ACMD ∨
           sd.state = IDLE ∨ sd.state = IDLE_ACMD)
    (hb : b < 256) (hcond : b ≠ 0xFF ∨ sd.cmd_idx ≠ 0)
    (hfull : sd.cmd_idx + 1 = 6) :
    spi_hook sd b =
      ([0xFF], enqueue_response
        { sd with cmd := upd sd.cmd sd.cmd_idx b, cmd_idx := 0 }) := by
  rcases hst with h | h | h | h | h <;>
    simp [spi_hook, hcs, send_byte, accept_byte, h, land_255_of_lt hb,
          hcond, hfull]

theorem spi_step_stbt_ff (sd : Sd) (b : Nat) (hcs : sd.cs = true)
    (hst : sd.state = WRITE_STBT) (hb : b < 256) (hne : b ≠ 0xFE) :
    spi_hook sd b = ([0xFF], sd) := by
  simp [spi_hook, hcs, send_byte, accept_byte, hst, land_255_of_lt hb, hne]

theorem spi_step_stbt_token (sd : Sd) (hcs : sd.cs = true)
    (hst : sd.state = WRITE_STBT) :
    spi_hook sd 0xFE = ([0xFF], { sd with state := WRITE_LISTEN }) := by
  have h254 : (0xFE : Nat) &&& 255 = 0xFE := by decide
  simp [spi_hook, hcs, send_byte, accept_byte, hst, h254]

theorem drain_run (n : Nat) (sd : Sd) (hcs : sd.cs = true)
    (hst : sd.state = CMD_RESPONSE) (hidx : sd.cmd_idx = 0)
    (hn : 1 ≤ n) (hlen : sd.send_idx + n = sd.send_len)
    (ha1 : sd.after_send_state ≠ WRITE_LISTEN)
    (ha2 : sd.after_send_state ≠ WRITE_CRC)
    (ha3 : sd.after_send_state ≠ CMD_RESPONSE) :
    runSpi sd (List.replicate n 0xFF) =
      ((List.range n).map (fun i => sd.send (sd.send_idx + i)),
       { sd with state := sd.after_send_state, after_send_state := IDLE,
                 send_idx := 0 }) := by
  induction n generalizing sd with
  | zero => omega
  | succ n ih =>
    rw [List.replicate_succ, runSpi_cons]
    by_cases hend : n = 0
    · subst hend
      have hdone : sd.send_idx + 1 = sd.send_len := by omega
      have hstep : spi_hook sd 0xFF =
          ([sd.send sd.send_idx],
           { sd with state := sd.after_send_state, after_send_state := IDLE,
                     send_idx := 0 }) := by
        cases hafter : sd.after_send_state <;>
          simp_all [spi_hook, send_byte, accept_byte, hcs, hst, hdone, hidx]
      rw [hstep]
      rw [show List.range 1 = [0] from rfl]
      simp [runSpi]
    · have hcont : sd.send_idx + 1 ≠ sd.send_len := by omega
      have hstep : spi_hook sd 0xFF =
          ([sd.send sd.send_idx], { sd with send_idx := sd.send_idx + 1 }) := by
        simp [spi_hook, send_byte, accept_byte, hcs, hst, hcont]
      rw [hstep]
      rw [ih { sd with send_idx := sd.send_idx + 1 } hcs hst hidx (by omega)
            (by simp; omega) ha1 ha2 ha3]
      simp only [List.range_succ_eq_map, List.map_cons, List.map_map,
                 Prod.mk.injEq]
      refine ⟨?_, trivial⟩
      rw [List.singleton_append, Nat.add_zero]
      congr 1
      apply List.map_congr_left
      intro i _
      simp only [Function.comp]
      congr 1
      omega

theorem read_bytes_succ (m : Nat → Nat) (h n : Nat) :
    read_bytes m h (n + 1) = m h :: read_bytes m (h + 1) n := by
  unfold read_bytes
  rw [List.range_succ_eq_map, List.map_cons, List.map_map, Nat.add_zero]
  congr 1
  apply List.map_congr_left
  intro i _
  simp only [Function.comp]
  congr 1
  omega

theorem write_listen_run (bs : List Nat) (sd : Sd) (hcs : sd.cs = true)
    (hst : sd.state = WRITE_LISTEN) (hb : ∀ b ∈ bs, b < 256)
    (hlen : sd.bytes_xfrd + bs.length = 512) (hne : bs ≠ []) :
    runSpi sd bs =
      (List.replicate bs.length 0xFF,
       { sd with mass := store_list sd.mass sd.head bs,
                 head := sd.head + bs.length,
                 crc16 := bs.foldl crc16_byte sd.crc16,
                 bytes_xfrd := 512, crc16_fst := true, state := WRITE_CRC }) := by
  induction bs generalizing sd with
  | nil => exact absurd rfl hne
  | cons b bs ih =>
    have hblt : b < 256 := hb b (List.mem_cons_self b bs)
    rw [runSpi_cons]
    by_cases hend : bs = []
    · subst hend
      have hfull : sd.bytes_xfrd + 1 = 512 := by
        simpa using hlen
      have hstep : spi_hook sd b =
          ([0xFF],
           { sd with mass := upd sd.mass sd.head b, head := sd.head + 1,
                     crc16 := crc16_byte sd.crc16 b, bytes_xfrd := 512,
                     crc16_fst := true, state := WRITE_CRC }) := by
        simp [spi_hook, hcs, send_byte, accept_byte, hst,
              land_255_of_lt hblt, hfull]
      rw [hstep]
      simp [runSpi, store_list, List.foldl]
    · have hcont : sd.bytes_xfrd + 1 ≠ 512 := by
        have : 1 ≤ bs.length := by
          cases bs with
          | nil => exact absurd rfl hend
          | cons x xs => simp
        simp only [List.length_cons] at hlen
        omega
      have hstep : spi_hook sd b =
          ([0xFF],
           { sd with mass := upd sd.mass sd.head b, head := sd.head + 1,
                     crc16 := crc16_byte sd.crc16 b,
                     bytes_xfrd := sd.bytes_xfrd + 1 }) := by
        simp [spi_hook, hcs, send_byte, accept_byte, hst,
              land_255_of_lt hblt, hcont]
      rw [hstep]
      rw [ih { sd with mass := upd sd.mass sd.head b, head := sd.head + 1,
                       crc16 := crc16_byte sd.crc16 b,
                       bytes_xfrd := sd.bytes_xfrd + 1 }
            hcs hst (fun x hx => hb x (List.mem_cons_of_mem b hx))
            (by simp only [List.length_cons] at hlen
                show sd.bytes_xfrd + 1 + bs.length = 512
                omega) hend]
      simp only [List.length_cons, List.replicate_succ, Prod.mk.injEq,
                 List.singleton_append, store_list, List.foldl_cons]
      refine ⟨trivial, ?_⟩
      congr 1
      omega

theorem read_block_run (n : Nat) (sd : Sd) (hcs : sd.cs = true)
    (hst : sd.state = READ_BLOCK) (hidx : sd.cmd_idx = 0)
    (hn : 1 ≤ n) (hlen : sd.bytes_xfrd + n = 512) :
    runSpi sd (List.replicate n 0xFF) =
      (read_bytes sd.mass sd.head n,
       { sd with
           crc16 := (read_bytes sd.mass sd.head n).foldl crc16_byte sd.crc16,
           head := sd.head + n, bytes_xfrd := 512,
           send := upd (upd sd.send 0
             (((read_bytes sd.mass sd.head n).foldl crc16_byte sd.crc16) >>> 8)) 1
             (((read_bytes sd.mass sd.head n).foldl crc16_byte sd.crc16) &&& 0xFF),
           send_len := 2, state := CMD_RESPONSE }) := by
  induction n generalizing sd with
  | zero => omega
  | succ n ih =>
    rw [List.replicate_succ, runSpi_cons, read_bytes_succ]
    by_cases hend : n = 0
    · subst hend
      have hfull : sd.bytes_xfrd + 1 = 512 := by omega
      have hstep : spi_hook sd 0xFF =
          ([sd.mass sd.head],
           { sd with crc16 := crc16_byte sd.crc16 (sd.mass sd.head),
                     bytes_xfrd := 512,
                     send := upd (upd sd.send 0
                       ((crc16_byte sd.crc16 (sd.mass sd.head)) >>> 8)) 1
                       ((crc16_byte sd.crc16 (sd.mass sd.head)) &&& 0xFF),
                     send_len := 2, state := CMD_RESPONSE,
                     head := sd.head + 1 }) := by
        simp [spi_hook, hcs, send_byte, accept_byte, enqueue_crc16, hst, hfull]
      rw [hstep]
      simp [runSpi, read_bytes, List.foldl]
    · have hcont : sd.bytes_xfrd + 1 ≠ 512 := by omega
      have hstep : spi_hook sd 0xFF =
          ([sd.mass sd.head],
           { sd with crc16 := crc16_byte sd.crc16 (sd.mass sd.head),
                     bytes_xfrd := sd.bytes_xfrd + 1,
                     head := sd.head + 1 }) := by
        simp [spi_hook, hcs, send_byte, accept_byte, hst, hcont, hidx]
      rw [hstep]
      rw [ih { sd with crc16 := crc16_byte sd.crc16 (sd.mass sd.head),
                       bytes_xfrd := sd.bytes_xfrd + 1, head := sd.head + 1 }
            hcs hst hidx (by omega) (by simp; omega)]
      simp only [List.singleton_append, List.foldl_cons, Prod.mk.injEq]
      refine ⟨trivial, ?_⟩
      congr 1
      omega

theorem enqueue_response_cmd17 (sd : Sd) (hst : sd.state = IDLE)
    (hci : command_index sd = 17)
    (hcap : 512 ≤ sd.capacity) (hcap2 : sd.capacity < 18446744073709551616)
    (harg : command_arg sd ≤ sd.capacity - 512) :
    enqueue_response sd =
      { sd with after_send_state := READ_BLOCK, send_idx := 0,
                head := command_arg sd, bytes_xfrd := 0, crc16 := 0xFFFF,
                multiple_block := false,
                send := upd (upd sd.send 0 0x00) 1 0xFE, send_len := 2,
                state := CMD_RESPONSE } := by
  have hlim : capacity_minus_block sd.capacity = sd.capacity - 512 :=
    capacity_minus_block_eq hcap hcap2
  have hargle : ¬(command_arg sd > sd.capacity - 512) := by omega
  simp [enqueue_response, hst, command_index, command_arg, hlim] at hci ⊢
  simp [enqueue_response, hst, hci, hlim, command_index, command_arg] at hargle ⊢
  simp [hargle]

theorem enqueue_response_cmd24 (sd : Sd) (hst : sd.state = IDLE)
    (hci : command_index sd = 24)
    (hcap : 512 ≤ sd.capacity) (hcap2 : sd.capacity < 18446744073709551616)
    (harg : command_arg sd ≤ sd.capacity - 512) :
    enqueue_response sd =
      { sd with after_send_state := WRITE_STBT, send_idx := 0,
                head := command_arg sd, bytes_xfrd := 0, crc16 := 0xFFFF,
                multiple_block := false, send := upd sd.send 0 0x00,
                send_len := 1, state := CMD_RESPONSE } := by
  have hlim : capacity_minus_block sd.capacity = sd.capacity - 512 :=
    capacity_minus_block_eq hcap hcap2
  have hargle : ¬(command_arg sd > sd.capacity - 512) := by omega
  simp [enqueue_response, hst, command_index, command_arg, hlim] at hci ⊢
  simp [enqueue_response, hst, hci, hlim, command_index, command_arg] at hargle ⊢
  simp [hargle, enqueue_r1_inner]

theorem spi_step_write_crc_first (sd : Sd) (b : Nat) (hcs : sd.cs = true)
    (hst : sd.state = WRITE_CRC) (hfst : sd.crc16_fst = true)
    (hen : sd.enforce_crc = false) :
    spi_hook sd b =
      ([0x05], { sd with after_send_state := IDLE, crc16_fst := false }) := by
  simp [spi_hook, hcs, send_byte, accept_byte, hst, hfst, hen]

theorem spi_step_write_crc_second (sd : Sd) (b : Nat) (hcs : sd.cs = true)
    (hst : sd.state = WRITE_CRC) (hfst : sd.crc16_fst = false)
    (hen : sd.enforce_crc = false) :
    spi_hook sd b =
      ([0x05], { sd with after_send_state := IDLE, crc16_fst := false,
                         send := upd sd.send 0 0x05, send_len := 1,
                         state := CMD_RESPONSE }) := by
  simp [spi_hook, hcs, send_byte, accept_byte, enqueue_r1_inner, hst, hfst, hen]

theorem feed_frame (sd : Sd) (b0 b1 b2 b3 b4 b5 : Nat) (hcs : sd.cs = true)
    (hst : sd.state = IDLE) (hidx : sd.cmd_idx = 0)
    (h0 : b0 < 256) (h0ne : b0 ≠ 0xFF) (h1 : b1 < 256) (h2 : b2 < 256)
    (h3 : b3 < 256) (h4 : b4 < 256) (h5 : b5 < 256) :
    runSpi sd [b0, b1, b2, b3, b4, b5] =
      ([0xFF, 0xFF, 0xFF, 0xFF, 0xFF, 0xFF],
       enqueue_response
         { sd with
             cmd := upd (upd (upd (upd (upd (upd sd.cmd 0 b0) 1 b1) 2 b2)
                      3 b3) 4 b4) 5 b5,
             cmd_idx := 0 }) := by
  simp [runSpi, spi_hook, send_byte, accept_byte, hcs, hst, hidx, h0ne,
        land_255_of_lt h0, land_255_of_lt h1, land_255_of_lt h2,
        land_255_of_lt h3, land_255_of_lt h4, land_255_of_lt h5]

theorem runSpi_chain {s s' s2 : Sd} {xs ys : List Nat} {o o2 : List Nat}
    (h1 : runSpi s xs = (o, s')) (h2 : runSpi s' ys = (o2, s2)) :
    runSpi s (xs ++ ys) = (o ++ o2, s2) := by
  rw [runSpi_append, h1, h2]

theorem runSpi_one {s s' : Sd} {b o : Nat} (h : spi_hook s b = ([o], s')) :
    runSpi s [b] = ([o], s') := by
  rw [runSpi_cons, h]
  simp [runSpi]

theorem spi_step_drain_last (sd : Sd) (hcs : sd.cs = true)
    (hst : sd.state = CMD_RESPONSE) (hidx : sd.cmd_idx = 0)
    (hlen : sd.send_idx + 1 = sd.send_len)
    (ha1 : sd.after_send_state ≠ WRITE_LISTEN)
    (ha2 : sd.after_send_state ≠ WRITE_CRC)
    (ha3 : sd.after_send_state ≠ CMD_RESPONSE) :
    spi_hook sd 0xFF =
      ([sd.send sd.send_idx],
       { sd with state := sd.after_send_state, after_send_state := IDLE,
                 send_idx := 0 }) := by
  cases hafter : sd.after_send_state <;>
    simp_all [spi_hook, send_byte, accept_byte, hcs, hst, hlen, hidx]

theorem spi_step_drain_mid (sd : Sd) (hcs : sd.cs = true)
    (hst : sd.state = CMD_RESPONSE) (hlen : sd.send_idx + 1 ≠ sd.send_len) :
    spi_hook sd 0xFF =
      ([sd.send sd.send_idx], { sd with send_idx := sd.send_idx + 1 }) := by
  simp [spi_hook, send_byte, accept_byte, hcs, hst, hlen]

theorem write_phase (sd : Sd) (A : Nat) (B : List Nat) (w1 c1 c2 : Nat)
    (hcs : sd.cs = true) (hst : sd.state = IDLE) (hidx : sd.cmd_idx = 0)
    (hen : sd.enforce_crc = false) (hA32 : A < 4294967296)
    (hcap : A + 512 ≤ sd.capacity) (hcap64 : sd.capacity < 18446744073709551616)
    (hB : B.length = 512) (hBlt : ∀ b ∈ B, b < 256) (hw1 : w1 < 256) :
    runSpi sd (cmd_frame 24 A w1 ++ [0xFF] ++ [0xFE] ++ B ++ [c1] ++ [c2] ++ [0xFF]) =
      ([0xFF, 0xFF, 0xFF, 0xFF, 0xFF, 0xFF] ++ [0x00] ++ [0xFF] ++
         List.replicate B.length 0xFF ++ [0x05] ++ [0x05] ++ [0x05],
       { sd with
           cmd := upd (upd (upd (upd (upd (upd sd.cmd 0 (64 + 24)) 1
                    (A / 16777216 % 256)) 2 (A / 65536 % 256)) 3 (A / 256 % 256))
                    4 (A % 256)) 5 w1,
           cmd_idx := 0, state := IDLE, after_send_state := IDLE,
           send := upd (upd sd.send 0 0x00) 0 0x05, send_idx := 0, send_len := 1,
           mass := store_list sd.mass A B, head := A + B.length, bytes_xfrd := 512,
           crc16 := B.foldl crc16_byte 0xFFFF, crc16_fst := false,
           multiple_block := false }) := by
  have hBne : B ≠ [] := by
    intro hnil
    rw [hnil] at hB
    simp at hB
  have F1 : runSpi sd (cmd_frame 24 A w1) =
      ([0xFF, 0xFF, 0xFF, 0xFF, 0xFF, 0xFF],
       enqueue_response
         { sd with
             cmd := upd (upd (upd (upd (upd (upd sd.cmd 0 (64 + 24)) 1
                      (A / 16777216 % 256)) 2 (A / 65536 % 256)) 3 (A / 256 % 256))
                      4 (A % 256)) 5 w1,
             cmd_idx := 0 }) :=
    feed_frame sd _ _ _ _ _ _ hcs hst hidx (by omega) (by omega) (by omega)
      (by omega) (by omega) (by omega) hw1
  have hciw : command_index
      { sd with
          cmd := upd (upd (upd (upd (upd (upd sd.cmd 0 (64 + 24)) 1
                   (A / 16777216 % 256)) 2 (A / 65536 % 256)) 3 (A / 256 % 256))
                   4 (A % 256)) 5 w1,
          cmd_idx := 0 } = 24 := by
    simp [command_index, upd]
    decide
  have hargw : command_arg
      { sd with
          cmd := upd (upd (upd (upd (upd (upd sd.cmd 0 (64 + 24)) 1
                   (A / 16777216 % 256)) 2 (A / 65536 % 256)) 3 (A / 256 % 256))
                   4 (A % 256)) 5 w1,
          cmd_idx := 0 } = A := by
    simp [command_arg, upd]
    omega
  have D1 : enqueue_response
      { sd with
          cmd := upd (upd (upd (upd (upd (upd sd.cmd 0 (64 + 24)) 1
                   (A / 16777216 % 256)) 2 (A / 65536 % 256)) 3 (A / 256 % 256))
                   4 (A % 256)) 5 w1,
          cmd_idx := 0 } =
      { sd with
          cmd := upd (upd (upd (upd (upd (upd sd.cmd 0 (64 + 24)) 1
                   (A / 16777216 % 256)) 2 (A / 65536 % 256)) 3 (A / 256 % 256))
                   4 (A % 256)) 5 w1,
          cmd_idx := 0, after_send_state := WRITE_STBT, send_idx := 0,
          head := A, bytes_xfrd := 0, crc16 := 0xFFFF, multiple_block := false,
          send := upd sd.send 0 0x00, send_len := 1, state := CMD_RESPONSE } := by
    rw [enqueue_response_cmd24 _ (by exact hst) hciw
          (by exact (by omega : (512 : Nat) ≤ sd.capacity))
          (by exact hcap64)
          (by rw [hargw]; exact (by omega : A ≤ sd.capacity - 512))]
    rw [hargw]
  have F1x : runSpi sd (cmd_frame 24 A w1) =
      ([0xFF, 0xFF, 0xFF, 0xFF, 0xFF, 0xFF],
       { sd with
          cmd := upd (upd (upd (upd (upd (upd sd.cmd 0 (64 + 24)) 1
                   (A / 16777216 % 256)) 2 (A / 65536 % 256)) 3 (A / 256 % 256))
                   4 (A % 256)) 5 w1,
          cmd_idx := 0, after_send_state := WRITE_STBT, send_idx := 0, head := A, bytes_xfrd := 0, crc16 := 0xFFFF, multiple_block := false, send := upd sd.send 0 0x00, send_len := 1, state := CMD_RESPONSE }) := by
    rw [F1, D1]
  have F2 : runSpi
      { sd with
          cmd := upd (upd (upd (upd (upd (upd sd.cmd 0 (64 + 24)) 1
                   (A / 16777216 % 256)) 2 (A / 65536 % 256)) 3 (A / 256 % 256))
                   4 (A % 256)) 5 w1,
          cmd_idx := 0, after_send_state := WRITE_STBT, send_idx := 0, head := A, bytes_xfrd := 0, crc16 := 0xFFFF, multiple_block := false, send := upd sd.send 0 0x00, send_len := 1, state := CMD_RESPONSE } [0xFF] =
      ([0x00],
       { sd with
          cmd := upd (upd (upd (upd (upd (upd sd.cmd 0 (64 + 24)) 1
                   (A / 16777216 % 256)) 2 (A / 65536 % 256)) 3 (A / 256 % 256))
                   4 (A % 256)) 5 w1,
          cmd_idx := 0, after_send_state := IDLE, send_idx := 0, head := A, bytes_xfrd := 0, crc16 := 0xFFFF, multiple_block := false, send := upd sd.send 0 0x00, send_len := 1, state := WRITE_STBT }) :=
    runSpi_one (spi_step_drain_last
      { sd with
          cmd := upd (upd (upd (upd (upd (upd sd.cmd 0 (64 + 24)) 1
                   (A / 16777216 % 256)) 2 (A / 65536 % 256)) 3 (A / 256 % 256))
                   4 (A % 256)) 5 w1,
          cmd_idx := 0, after_send_state := WRITE_STBT, send_idx := 0, head := A, bytes_xfrd := 0, crc16 := 0xFFFF, multiple_block := false, send := upd sd.send 0 0x00, send_len := 1, state := CMD_RESPONSE } (by exact hcs) rfl rfl rfl
      (fun hx => SdState.noConfusion hx) (fun hx => SdState.noConfusion hx)
      (fun hx => SdState.noConfusion hx))
  have F3 : runSpi
      { sd with
          cmd := upd (upd (upd (upd (upd (upd sd.cmd 0 (64 + 24)) 1
                   (A / 16777216 % 256)) 2 (A / 65536 % 256)) 3 (A / 256 % 256))
                   4 (A % 256)) 5 w1,
          cmd_idx := 0, after_send_state := IDLE, send_idx := 0, head := A, bytes_xfrd := 0, crc16 := 0xFFFF, multiple_block := false, send := upd sd.send 0 0x00, send_len := 1, state := WRITE_STBT } [0xFE] =
      ([0xFF],
       { sd with
          cmd := upd (upd (upd (upd (upd (upd sd.cmd 0 (64 + 24)) 1
                   (A / 16777216 % 256)) 2 (A / 65536 % 256)) 3 (A / 256 % 256))
                   4 (A % 256)) 5 w1,
          cmd_idx := 0, after_send_state := IDLE, send_idx := 0, head := A, bytes_xfrd := 0, crc16 := 0xFFFF, multiple_block := false, send := upd sd.send 0 0x00, send_len := 1, state := WRITE_LISTEN }) :=
    runSpi_one (spi_step_stbt_token _ (by exact hcs) rfl)
  have F4 : runSpi
      { sd with
          cmd := upd (upd (upd (upd (upd (upd sd.cmd 0 (64 + 24)) 1
                   (A / 16777216 % 256)) 2 (A / 65536 % 256)) 3 (A / 256 % 256))
                   4 (A % 256)) 5 w1,
          cmd_idx := 0, after_send_state := IDLE, send_idx := 0, head := A, bytes_xfrd := 0, crc16 := 0xFFFF, multiple_block := false, send := upd sd.send 0 0x00, send_len := 1, state := WRITE_LISTEN } B =
      (List.replicate B.length 0xFF,
       { sd with
          cmd := upd (upd (upd (upd (upd (upd sd.cmd 0 (64 + 24)) 1
                   (A / 16777216 % 256)) 2 (A / 65536 % 256)) 3 (A / 256 % 256))
                   4 (A % 256)) 5 w1,
          cmd_idx := 0, after_send_state := IDLE, send_idx := 0, mass := store_list sd.mass A B, head := A + B.length, bytes_xfrd := 512, crc16 := B.foldl crc16_byte 0xFFFF, crc16_fst := true, multiple_block := false, send := upd sd.send 0 0x00, send_len := 1, state := WRITE_CRC }) := by
    rw [write_listen_run B _ (by exact hcs) rfl hBlt
          (by exact (by omega : 0 + B.length = 512)) hBne]
  have F5 : runSpi
      { sd with
          cmd := upd (upd (upd (upd (upd (upd sd.cmd 0 (64 + 24)) 1
                   (A / 16777216 % 256)) 2 (A / 65536 % 256)) 3 (A / 256 % 256))
                   4 (A % 256)) 5 w1,
          cmd_idx := 0, after_send_state := IDLE, send_idx := 0, mass := store_list sd.mass A B, head := A + B.length, bytes_xfrd := 512, crc16 := B.foldl crc16_byte 0xFFFF, crc16_fst := true, multiple_block := false, send := upd sd.send 0 0x00, send_len := 1, state := WRITE_CRC } [c1] =
      ([0x05],
       { sd with
          cmd := upd (upd (upd (upd (upd (upd sd.cmd 0 (64 + 24)) 1
                   (A / 16777216 % 256)) 2 (A / 65536 % 256)) 3 (A / 256 % 256))
                   4 (A % 256)) 5 w1,
          cmd_idx := 0, after_send_state := IDLE, send_idx := 0, mass := store_list sd.mass A B, head := A + B.length, bytes_xfrd := 512, crc16 := B.foldl crc16_byte 0xFFFF, crc16_fst := false, multiple_block := false, send := upd sd.send 0 0x00, send_len := 1, state := WRITE_CRC }) :=
    runSpi_one (spi_step_write_crc_first _ c1 (by exact hcs) rfl rfl
      (by exact hen))
  have F6 : runSpi
      { sd with
          cmd := upd (upd (upd (upd (upd (upd sd.cmd 0 (64 + 24)) 1
                   (A / 16777216 % 256)) 2 (A / 65536 % 256)) 3 (A / 256 % 256))
                   4 (A % 256)) 5 w1,
          cmd_idx := 0, after_send_state := IDLE, send_idx := 0, mass := store_list sd.mass A B, head := A + B.length, bytes_xfrd := 512, crc16 := B.foldl crc16_byte 0xFFFF, crc16_fst := false, multiple_block := false, send := upd sd.send 0 0x00, send_len := 1, state := WRITE_CRC } [c2] =
      ([0x05],
       { sd with
          cmd := upd (upd (upd (upd (upd (upd sd.cmd 0 (64 + 24)) 1
                   (A / 16777216 % 256)) 2 (A / 65536 % 256)) 3 (A / 256 % 256))
                   4 (A % 256)) 5 w1,
          cmd_idx := 0, after_send_state := IDLE, send_idx := 0, mass := store_list sd.mass A B, head := A + B.length, bytes_xfrd := 512, crc16 := B.foldl crc16_byte 0xFFFF, crc16_fst := false, multiple_block := false, send := upd (upd sd.send 0 0x00) 0 0x05, send_len := 1, state := CMD_RESPONSE }) :=
    runSpi_one (spi_step_write_crc_second _ c2 (by exact hcs) rfl rfl
      (by exact hen))
  have F7 : runSpi
      { sd with
          cmd := upd (upd (upd (upd (upd (upd sd.cmd 0 (64 + 24)) 1
                   (A / 16777216 % 256)) 2 (A / 65536 % 256)) 3 (A / 256 % 256))
                   4 (A % 256)) 5 w1,
          cmd_idx := 0, after_send_state := IDLE, send_idx := 0, mass := store_list sd.mass A B, head := A + B.length, bytes_xfrd := 512, crc16 := B.foldl crc16_byte 0xFFFF, crc16_fst := false, multiple_block := false, send := upd (upd sd.send 0 0x00) 0 0x05, send_len := 1, state := CMD_RESPONSE } [0xFF] =
      ([0x05],
       { sd with
          cmd := upd (upd (upd (upd (upd (upd sd.cmd 0 (64 + 24)) 1
                   (A / 16777216 % 256)) 2 (A / 65536 % 256)) 3 (A / 256 % 256))
                   4 (A % 256)) 5 w1,
          cmd_idx := 0, after_send_state := IDLE, send_idx := 0, mass := store_list sd.mass A B, head := A + B.length, bytes_xfrd := 512, crc16 := B.foldl crc16_byte 0xFFFF, crc16_fst := false, multiple_block := false, send := upd (upd sd.send 0 0x00) 0 0x05, send_len := 1, state := IDLE }) :=
    runSpi_one (spi_step_drain_last
      { sd with
          cmd := upd (upd (upd (upd (upd (upd sd.cmd 0 (64 + 24)) 1
                   (A / 16777216 % 256)) 2 (A / 65536 % 256)) 3 (A / 256 % 256))
                   4 (A % 256)) 5 w1,
          cmd_idx := 0, after_send_state := IDLE, send_idx := 0, mass := store_list sd.mass A B, head := A + B.length, bytes_xfrd := 512, crc16 := B.foldl crc16_byte 0xFFFF, crc16_fst := false, multiple_block := false, send := upd (upd sd.send 0 0x00) 0 0x05, send_len := 1, state := CMD_RESPONSE } (by exact hcs) rfl rfl rfl
      (fun hx => SdState.noConfusion hx) (fun hx => SdState.noConfusion hx)
      (fun hx => SdState.noConfusion hx))
  exact runSpi_chain (runSpi_chain (runSpi_chain (runSpi_chain (runSpi_chain
    (runSpi_chain F1x F2) F3) F4) F5) F6) F7

theorem read_phase (sd : Sd) (A : Nat) (w2 : Nat)
    (hcs : sd.cs = true) (hst : sd.state = IDLE) (hidx : sd.cmd_idx = 0)
    (hA32 : A < 4294967296)
    (hcap : A + 512 ≤ sd.capacity) (hcap64 : sd.capacity < 18446744073709551616)
    (hw2 : w2 < 256) :
    runSpi sd (cmd_frame 17 A w2 ++ [0xFF] ++ [0xFF] ++
               List.replicate 512 0xFF ++ [0xFF] ++ [0xFF]) =
      ([0xFF, 0xFF, 0xFF, 0xFF, 0xFF, 0xFF] ++ [0x00] ++ [0xFE] ++
         read_bytes sd.mass A 512 ++ [((read_bytes sd.mass A 512).foldl crc16_byte 0xFFFF) >>> 8] ++ [((read_bytes sd.mass A 512).foldl crc16_byte 0xFFFF) &&& 0xFF],
       { sd with
          cmd := upd (upd (upd (upd (upd (upd sd.cmd 0 (64 + 17)) 1
                   (A / 16777216 % 256)) 2 (A / 65536 % 256)) 3 (A / 256 % 256))
                   4 (A % 256)) 5 w2,
          cmd_idx := 0, after_send_state := IDLE, send_idx := 0, head := A + 512, bytes_xfrd := 512, crc16 := ((read_bytes sd.mass A 512).foldl crc16_byte 0xFFFF), multiple_block := false, send := upd (upd (upd (upd sd.send 0 0x00) 1 0xFE) 0 (((read_bytes sd.mass A 512).foldl crc16_byte 0xFFFF) >>> 8)) 1 (((read_bytes sd.mass A 512).foldl crc16_byte 0xFFFF) &&& 0xFF), send_len := 2, state := IDLE }) := by
  have G1 : runSpi sd (cmd_frame 17 A w2) =
      ([0xFF, 0xFF, 0xFF, 0xFF, 0xFF, 0xFF],
       enqueue_response
         { sd with
          cmd := upd (upd (upd (upd (upd (upd sd.cmd 0 (64 + 17)) 1
                   (A / 16777216 % 256)) 2 (A / 65536 % 256)) 3 (A / 256 % 256))
                   4 (A % 256)) 5 w2,
          cmd_idx := 0 }) :=
    feed_frame sd _ _ _ _ _ _ hcs hst hidx (by omega) (by omega) (by omega)
      (by omega) (by omega) (by omega) hw2
  have hcir : command_index
      { sd with
          cmd := upd (upd (upd (upd (upd (upd sd.cmd 0 (64 + 17)) 1
                   (A / 16777216 % 256)) 2 (A / 65536 % 256)) 3 (A / 256 % 256))
                   4 (A % 256)) 5 w2,
          cmd_idx := 0 } = 17 := by
    simp [command_index, upd]
    decide
  have hargr : command_arg
      { sd with
          cmd := upd (upd (upd (upd (upd (upd sd.cmd 0 (64 + 17)) 1
                   (A / 16777216 % 256)) 2 (A / 65536 % 256)) 3 (A / 256 % 256))
                   4 (A % 256)) 5 w2,
          cmd_idx := 0 } = A := by
    simp [command_arg, upd]
    omega
  have D1 : enqueue_response
      { sd with
          cmd := upd (upd (upd (upd (upd (upd sd.cmd 0 (64 + 17)) 1
                   (A / 16777216 % 256)) 2 (A / 65536 % 256)) 3 (A / 256 % 256))
                   4 (A % 256)) 5 w2,
          cmd_idx := 0 } =
      { sd with
          cmd := upd (upd (upd (upd (upd (upd sd.cmd 0 (64 + 17)) 1
                   (A / 16777216 % 256)) 2 (A / 65536 % 256)) 3 (A / 256 % 256))
                   4 (A % 256)) 5 w2,
          cmd_idx := 0, after_send_state := READ_BLOCK, send_idx := 0, head := A, bytes_xfrd := 0, crc16 := 0xFFFF, multiple_block := false, send := upd (upd sd.send 0 0x00) 1 0xFE, send_len := 2, state := CMD_RESPONSE } := by
    rw [enqueue_response_cmd17 _ (by exact hst) hcir
          (by exact (by omega : (512 : Nat) ≤ sd.capacity))
          (by exact hcap64)
          (by rw [hargr]; exact (by omega : A ≤ sd.capacity - 512))]
    rw [hargr]
  have G1x : runSpi sd (cmd_frame 17 A w2) =
      ([0xFF, 0xFF, 0xFF, 0xFF, 0xFF, 0xFF],
       { sd with
          cmd := upd (upd (upd (upd (upd (upd sd.cmd 0 (64 + 17)) 1
                   (A / 16777216 % 256)) 2 (A / 65536 % 256)) 3 (A / 256 % 256))
                   4 (A % 256)) 5 w2,
          cmd_idx := 0, after_send_state := READ_BLOCK, send_idx := 0, head := A, bytes_xfrd := 0, crc16 := 0xFFFF, multiple_block := false, send := upd (upd sd.send 0 0x00) 1 0xFE, send_len := 2, state := CMD_RESPONSE }) := by
    rw [G1, D1]
  have G2 : runSpi
      { sd with
          cmd := upd (upd (upd (upd (upd (upd sd.cmd 0 (64 + 17)) 1
                   (A / 16777216 % 256)) 2 (A / 65536 % 256)) 3 (A / 256 % 256))
                   4 (A % 256)) 5 w2,
          cmd_idx := 0, after_send_state := READ_BLOCK, send_idx := 0, head := A, bytes_xfrd := 0, crc16 := 0xFFFF, multiple_block := false, send := upd (upd sd.send 0 0x00) 1 0xFE, send_len := 2, state := CMD_RESPONSE } [0xFF] =
      ([0x00],
       { sd with
          cmd := upd (upd (upd (upd (upd (upd sd.cmd 0 (64 + 17)) 1
                   (A / 16777216 % 256)) 2 (A / 65536 % 256)) 3 (A / 256 % 256))
                   4 (A % 256)) 5 w2,
          cmd_idx := 0, after_send_state := READ_BLOCK, send_idx := 1, head := A, bytes_xfrd := 0, crc16 := 0xFFFF, multiple_block := false, send := upd (upd sd.send 0 0x00) 1 0xFE, send_len := 2, state := CMD_RESPONSE }) :=
    runSpi_one (spi_step_drain_mid
      { sd with
          cmd := upd (upd (upd (upd (upd (upd sd.cmd 0 (64 + 17)) 1
                   (A / 16777216 % 256)) 2 (A / 65536 % 256)) 3 (A / 256 % 256))
                   4 (A % 256)) 5 w2,
          cmd_idx := 0, after_send_state := READ_BLOCK, send_idx := 0, head := A, bytes_xfrd := 0, crc16 := 0xFFFF, multiple_block := false, send := upd (upd sd.send 0 0x00) 1 0xFE, send_len := 2, state := CMD_RESPONSE } (by exact hcs) rfl
      (by exact (by decide : (0 : Nat) + 1 ≠ 2)))
  have G3 : runSpi
      { sd with
          cmd := upd (upd (upd (upd (upd (upd sd.cmd 0 (64 + 17)) 1
                   (A / 16777216 % 256)) 2 (A / 65536 % 256)) 3 (A / 256 % 256))
                   4 (A % 256)) 5 w2,
          cmd_idx := 0, after_send_state := READ_BLOCK, send_idx := 1, head := A, bytes_xfrd := 0, crc16 := 0xFFFF, multiple_block := false, send := upd (upd sd.send 0 0x00) 1 0xFE, send_len := 2, state := CMD_RESPONSE } [0xFF] =
      ([0xFE],
       { sd with
          cmd := upd (upd (upd (upd (upd (upd sd.cmd 0 (64 + 17)) 1
                   (A / 16777216 % 256)) 2 (A / 65536 % 256)) 3 (A / 256 % 256))
                   4 (A % 256)) 5 w2,
          cmd_idx := 0, after_send_state := IDLE, send_idx := 0, head := A, bytes_xfrd := 0, crc16 := 0xFFFF, multiple_block := false, send := upd (upd sd.send 0 0x00) 1 0xFE, send_len := 2, state := READ_BLOCK }) :=
    runSpi_one (spi_step_drain_last
      { sd with
          cmd := upd (upd (upd (upd (upd (upd sd.cmd 0 (64 + 17)) 1
                   (A / 16777216 % 256)) 2 (A / 65536 % 256)) 3 (A / 256 % 256))
                   4 (A % 256)) 5 w2,
          cmd_idx := 0, after_send_state := READ_BLOCK, send_idx := 1, head := A, bytes_xfrd := 0, crc16 := 0xFFFF, multiple_block := false, send := upd (upd sd.send 0 0x00) 1 0xFE, send_len := 2, state := CMD_RESPONSE } (by exact hcs) rfl rfl rfl
      (fun hx => SdState.noConfusion hx) (fun hx => SdState.noConfusion hx)
      (fun hx => SdState.noConfusion hx))
  have G4 : runSpi
      { sd with
          cmd := upd (upd (upd (upd (upd (upd sd.cmd 0 (64 + 17)) 1
                   (A / 16777216 % 256)) 2 (A / 65536 % 256)) 3 (A / 256 % 256))
                   4 (A % 256)) 5 w2,
          cmd_idx := 0, after_send_state := IDLE, send_idx := 0, head := A, bytes_xfrd := 0, crc16 := 0xFFFF, multiple_block := false, send := upd (upd sd.send 0 0x00) 1 0xFE, send_len := 2, state := READ_BLOCK } (List.replicate 512 0xFF) =
      (read_bytes sd.mass A 512,
       { sd with
          cmd := upd (upd (upd (upd (upd (upd sd.cmd 0 (64 + 17)) 1
                   (A / 16777216 % 256)) 2 (A / 65536 % 256)) 3 (A / 256 % 256))
                   4 (A % 256)) 5 w2,
          cmd_idx := 0, after_send_state := IDLE, send_idx := 0, head := A + 512, bytes_xfrd := 512, crc16 := ((read_bytes sd.mass A 512).foldl crc16_byte 0xFFFF), multiple_block := false, send := upd (upd (upd (upd sd.send 0 0x00) 1 0xFE) 0 (((read_bytes sd.mass A 512).foldl crc16_byte 0xFFFF) >>> 8)) 1 (((read_bytes sd.mass A 512).foldl crc16_byte 0xFFFF) &&& 0xFF), send_len := 2, state := CMD_RESPONSE }) := by
    rw [read_block_run 512
          { sd with
          cmd := upd (upd (upd (upd (upd (upd sd.cmd 0 (64 + 17)) 1
                   (A / 16777216 % 256)) 2 (A / 65536 % 256)) 3 (A / 256 % 256))
                   4 (A % 256)) 5 w2,
          cmd_idx := 0, after_send_state := IDLE, send_idx := 0, head := A, bytes_xfrd := 0, crc16 := 0xFFFF, multiple_block := false, send := upd (upd sd.send 0 0x00) 1 0xFE, send_len := 2, state := READ_BLOCK } (by exact hcs) rfl rfl
          (by omega) (by exact (by omega : (0 : Nat) + 512 = 512))]
  have G5 : runSpi
      { sd with
          cmd := upd (upd (upd (upd (upd (upd sd.cmd 0 (64 + 17)) 1
                   (A / 16777216 % 256)) 2 (A / 65536 % 256)) 3 (A / 256 % 256))
                   4 (A % 256)) 5 w2,
          cmd_idx := 0, after_send_state := IDLE, send_idx := 0, head := A + 512, bytes_xfrd := 512, crc16 := ((read_bytes sd.mass A 512).foldl crc16_byte 0xFFFF), multiple_block := false, send := upd (upd (upd (upd sd.send 0 0x00) 1 0xFE) 0 (((read_bytes sd.mass A 512).foldl crc16_byte 0xFFFF) >>> 8)) 1 (((read_bytes sd.mass A 512).foldl crc16_byte 0xFFFF) &&& 0xFF), send_len := 2, state := CMD_RESPONSE } [0xFF] =
      ([((read_bytes sd.mass A 512).foldl crc16_byte 0xFFFF) >>> 8],
       { sd with
          cmd := upd (upd (upd (upd (upd (upd sd.cmd 0 (64 + 17)) 1
                   (A / 16777216 % 256)) 2 (A / 65536 % 256)) 3 (A / 256 % 256))
                   4 (A % 256)) 5 w2,
          cmd_idx := 0, after_send_state := IDLE, send_idx := 1, head := A + 512, bytes_xfrd := 512, crc16 := ((read_bytes sd.mass A 512).foldl crc16_byte 0xFFFF), multiple_block := false, send := upd (upd (upd (upd sd.send 0 0x00) 1 0xFE) 0 (((read_bytes sd.mass A 512).foldl crc16_byte 0xFFFF) >>> 8)) 1 (((read_bytes sd.mass A 512).foldl crc16_byte 0xFFFF) &&& 0xFF), send_len := 2, state := CMD_RESPONSE }) :=
    runSpi_one (spi_step_drain_mid
      { sd with
          cmd := upd (upd (upd (upd (upd (upd sd.cmd 0 (64 + 17)) 1
                   (A / 16777216 % 256)) 2 (A / 65536 % 256)) 3 (A / 256 % 256))
                   4 (A % 256)) 5 w2,
          cmd_idx := 0, after_send_state := IDLE, send_idx := 0, head := A + 512, bytes_xfrd := 512, crc16 := ((read_bytes sd.mass A 512).foldl crc16_byte 0xFFFF), multiple_block := false, send := upd (upd (upd (upd sd.send 0 0x00) 1 0xFE) 0 (((read_bytes sd.mass A 512).foldl crc16_byte 0xFFFF) >>> 8)) 1 (((read_bytes sd.mass A 512).foldl crc16_byte 0xFFFF) &&& 0xFF), send_len := 2, state := CMD_RESPONSE } (by exact hcs) rfl
      (by exact (by decide : (0 : Nat) + 1 ≠ 2)))
  have G6 : runSpi
      { sd with
          cmd := upd (upd (upd (upd (upd (upd sd.cmd 0 (64 + 17)) 1
                   (A / 16777216 % 256)) 2 (A / 65536 % 256)) 3 (A / 256 % 256))
                   4 (A % 256)) 5 w2,
          cmd_idx := 0, after_send_state := IDLE, send_idx := 1, head := A + 512, bytes_xfrd := 512, crc16 := ((read_bytes sd.mass A 512).foldl crc16_byte 0xFFFF), multiple_block := false, send := upd (upd (upd (upd sd.send 0 0x00) 1 0xFE) 0 (((read_bytes sd.mass A 512).foldl crc16_byte 0xFFFF) >>> 8)) 1 (((read_bytes sd.mass A 512).foldl crc16_byte 0xFFFF) &&& 0xFF), send_len := 2, state := CMD_RESPONSE } [0xFF] =
      ([((read_bytes sd.mass A 512).foldl crc16_byte 0xFFFF) &&& 0xFF],
       { sd with
          cmd := upd (upd (upd (upd (upd (upd sd.cmd 0 (64 + 17)) 1
                   (A / 16777216 % 256)) 2 (A / 65536 % 256)) 3 (A / 256 % 256))
                   4 (A % 256)) 5 w2,
          cmd_idx := 0, after_send_state := IDLE, send_idx := 0, head := A + 512, bytes_xfrd := 512, crc16 := ((read_bytes sd.mass A 512).foldl crc16_byte 0xFFFF), multiple_block := false, send := upd (upd (upd (upd sd.send 0 0x00) 1 0xFE) 0 (((read_bytes sd.mass A 512).foldl crc16_byte 0xFFFF) >>> 8)) 1 (((read_bytes sd.mass A 512).foldl crc16_byte 0xFFFF) &&& 0xFF), send_len := 2, state := IDLE }) :=
    runSpi_one (spi_step_drain_last
      { sd with
          cmd := upd (upd (upd (upd (upd (upd sd.cmd 0 (64 + 17)) 1
                   (A / 16777216 % 256)) 2 (A / 65536 % 256)) 3 (A / 256 % 256))
                   4 (A % 256)) 5 w2,
          cmd_idx := 0, after_send_state := IDLE, send_idx := 1, head := A + 512, bytes_xfrd := 512, crc16 := ((read_bytes sd.mass A 512).foldl crc16_byte 0xFFFF), multiple_block := false, send := upd (upd (upd (upd sd.send 0 0x00) 1 0xFE) 0 (((read_bytes sd.mass A 512).foldl crc16_byte 0xFFFF) >>> 8)) 1 (((read_bytes sd.mass A 512).foldl crc16_byte 0xFFFF) &&& 0xFF), send_len := 2, state := CMD_RESPONSE } (by exact hcs) rfl rfl rfl
      (fun hx => SdState.noConfusion hx) (fun hx => SdState.noConfusion hx)
      (fun hx => SdState.noConfusion hx))
  exact runSpi_chain (runSpi_chain (runSpi_chain (runSpi_chain
    (runSpi_chain G1x G2) G3) G4) G5) G6

theorem read_bytes_store_list (m : Nat → Nat) (A : Nat) (B : List Nat)
    (hB : B.length = 512) :
    read_bytes (store_list m A B) A 512 = B := by
  have h1 : (List.range 512).map (fun i => store_list m A B (A + i)) =
      (List.range 512).map (fun i => B.getD i 0) := by
    apply List.map_congr_left
    intro i hi
    rw [List.mem_range] at hi
    rw [store_list_apply, if_pos (by omega)]
    congr 1
    omega
  have h2 := map_range_getD B
  rw [hB] at h2
  unfold read_bytes
  rw [h1, h2]

/-- C1 (confirmed): from any resting IDLE card with the chip selected, a
complete single-block write of a 512-byte block B to a 32-bit block-aligned
address A with A + 512 <= capacity (CMD24 frame, one drain byte for the R1
response, start token 0xFE, the 512 data bytes, two CRC bytes, one drain
byte for the data response) followed by a complete single-block read from A
(CMD17 frame, two drain bytes for the 0x00 0xFE preamble, 512 data bytes and
the two CRC trailer bytes) produces exactly the bytes of B in the data
section of the MISO trace, leaves every image byte outside [A, A+512)
unchanged, and returns the card to IDLE. -/
theorem claim1_roundtrip (sd : Sd) (A : Nat) (B : List Nat) (w1 w2 c1 c2 : Nat)
    (hcs : sd.cs = true) (hst : sd.state = IDLE) (hidx : sd.cmd_idx = 0)
    (hen : sd.enforce_crc = false) (halign : A % 512 = 0) (hA32 : A < 4294967296)
    (hcap : A + 512 ≤ sd.capacity) (hcap64 : sd.capacity < 18446744073709551616)
    (hB : B.length = 512) (hBlt : ∀ b ∈ B, b < 256)
    (hw1 : w1 < 256) (hw2 : w2 < 256) :
    ((runSpi sd (roundtrip_events A B w1 w2 c1 c2)).1 =
       [0xFF, 0xFF, 0xFF, 0xFF, 0xFF, 0xFF, 0x00, 0xFF] ++
       List.replicate 512 0xFF ++
       [0x05, 0x05, 0x05, 0xFF, 0xFF, 0xFF, 0xFF, 0xFF, 0xFF, 0x00, 0xFE] ++
       B ++
       [(B.foldl crc16_byte 0xFFFF) >>> 8, (B.foldl crc16_byte 0xFFFF) &&& 0xFF]) ∧
    (∀ i, i < A ∨ A + 512 ≤ i →
       (runSpi sd (roundtrip_events A B w1 w2 c1 c2)).2.mass i = sd.mass i) ∧
    (runSpi sd (roundtrip_events A B w1 w2 c1 c2)).2.state = IDLE := by
  have hassoc : roundtrip_events A B w1 w2 c1 c2 =
      (cmd_frame 24 A w1 ++ [0xFF] ++ [0xFE] ++ B ++ [c1] ++ [c2] ++ [0xFF]) ++
      (cmd_frame 17 A w2 ++ [0xFF] ++ [0xFF] ++ List.replicate 512 0xFF ++
       [0xFF] ++ [0xFF]) := by
    simp [roundtrip_events, List.append_assoc]
  have main := runSpi_chain
    (write_phase sd A B w1 c1 c2 hcs hst hidx hen hA32 hcap hcap64 hB hBlt hw1)
    (read_phase _ A w2 (by exact hcs) rfl rfl hA32 (by exact hcap)
      (by exact hcap64) hw2)
  rw [hassoc, main]
  refine ⟨?_, ?_, ?_⟩
  · show ([0xFF, 0xFF, 0xFF, 0xFF, 0xFF, 0xFF] ++ [0x00] ++ [0xFF] ++
        List.replicate B.length 0xFF ++ [0x05] ++ [0x05] ++ [0x05]) ++
        ([0xFF, 0xFF, 0xFF, 0xFF, 0xFF, 0xFF] ++ [0x00] ++ [0xFE] ++
         read_bytes (store_list sd.mass A B) A 512 ++
         [((read_bytes (store_list sd.mass A B) A 512).foldl crc16_byte 0xFFFF) >>> 8] ++
         [((read_bytes (store_list sd.mass A B) A 512).foldl crc16_byte 0xFFFF) &&& 0xFF]) = _
    rw [read_bytes_store_list sd.mass A B hB, hB]
    simp [List.append_assoc]
  · intro i hi
    show store_list sd.mass A B i = sd.mass i
    rw [store_list_apply, if_neg (by omega)]
  · rfl

/-- C6 (confirmed): streaming a single-block read (512 data bytes followed by
the enqueued CRC trailer) emits the 512 image bytes at head and then the two
CRC-16 bytes, equal to the left fold of crc16_byte over those 512 bytes
starting from 0xFFFF, high byte first then low byte. -/
theorem claim6_read_crc (sd : Sd)
    (hcs : sd.cs = true) (hst : sd.state = READ_BLOCK) (hidx : sd.cmd_idx = 0)
    (hsidx : sd.send_idx = 0) (hbx : sd.bytes_xfrd = 0) (hcrc : sd.crc16 = 0xFFFF)
    (ha : sd.after_send_state = IDLE) :
    (runSpi sd (List.replicate 514 0xFF)).1 =
      read_bytes sd.mass sd.head 512 ++
      [((read_bytes sd.mass sd.head 512).foldl crc16_byte 0xFFFF) >>> 8,
       ((read_bytes sd.mass sd.head 512).foldl crc16_byte 0xFFFF) &&& 0xFF] := by
  have hane1 : sd.after_send_state ≠ WRITE_LISTEN := by
    rw [ha]; exact fun hx => SdState.noConfusion hx
  have hane2 : sd.after_send_state ≠ WRITE_CRC := by
    rw [ha]; exact fun hx => SdState.noConfusion hx
  have hane3 : sd.after_send_state ≠ CMD_RESPONSE := by
    rw [ha]; exact fun hx => SdState.noConfusion hx
  have R1 := read_block_run 512 sd hcs hst hidx (by omega) (by omega)
  have R2 := drain_run 2
      { sd with
          crc16 := ((read_bytes sd.mass sd.head 512).foldl crc16_byte sd.crc16),
          head := sd.head + 512, bytes_xfrd := 512,
          send := upd (upd sd.send 0 (((read_bytes sd.mass sd.head 512).foldl crc16_byte sd.crc16) >>> 8)) 1 (((read_bytes sd.mass sd.head 512).foldl crc16_byte sd.crc16) &&& 0xFF),
          send_len := 2, state := CMD_RESPONSE }
      (by exact hcs) rfl (by exact hidx) (by omega)
      (by exact (by omega : sd.send_idx + 2 = 2))
      (by exact hane1) (by exact hane2) (by exact hane3)
  have hsplit : List.replicate 514 (0xFF : Nat) =
      List.replicate 512 0xFF ++ List.replicate 2 0xFF := by
    rw [← List.replicate_add]
  rw [hsplit, runSpi_chain R1 R2]
  show read_bytes sd.mass sd.head 512 ++ _ = _
  congr 1
  rw [show List.range 2 = [0, 1] from rfl]
  simp [upd, hsidx, hcrc]

/-- C10 (confirmed): while the chip is deselected (cs false) an SPI transfer
event is a complete no-op: nothing is asserted on MISO and the card is
returned unchanged. -/
theorem claim10_deselected_noop (sd : Sd) (v : Nat) (h : sd.cs = false) :
    spi_hook sd v = ([], sd) := by
  simp [spi_hook, h]

/-- C10 witness: the deselected no-op theorem at a freshly initialized
(still deselected) card. -/
theorem claim10_witness :
    (sd_fresh (fun _ => 0) 1024).cs = false ∧
    spi_hook (sd_fresh (fun _ => 0) 1024) 0x40 = ([], sd_fresh (fun _ => 0) 1024) :=
  ⟨rfl, claim10_deselected_noop (sd_fresh (fun _ => 0) 1024) 0x40 rfl⟩

/-- C9 counterexample: with open and mmap succeeding, sd_init accepts a
256-byte image even though 256 < 512, refuting the claim that the model
refuses to start when capacity is less than one block. -/
theorem claim9_counterexample :
    256 < 512 ∧ (sd_init true true 256 (fun _ => 0)).isSome = true :=
  ⟨by decide, rfl⟩

/-- C9 (amended): initialization success depends only on the open and mmap
outcomes - sd_init performs no capacity check at all, so whether it fails is
independent of the image size (and an image smaller than one block is
accepted). -/
theorem claim9_capacity_not_checked (o k : Bool) (sz sz' : Nat)
    (m m' : Nat → Nat) :
    (sd_init o k sz m).isSome = (sd_init o k sz' m').isSome := by
  cases o <;> cases k <;> simp [sd_init]

/-- C3 counterexample: a card in READ_BLOCK that receives inbound byte 0x40
is mutated: the byte is accumulated into the command frame (cmd_idx goes
0 to 1 and cmd[0] becomes 0x40), refuting the claim that the inbound side is
ignored in READ_BLOCK. -/
theorem claim3_counterexample :
    (mkCard READ_BLOCK).state = READ_BLOCK ∧ (mkCard READ_BLOCK).cmd_idx = 0 ∧
    (accept_byte (mkCard READ_BLOCK) 0x40).1.cmd_idx = 1 ∧
    (accept_byte (mkCard READ_BLOCK) 0x40).1.cmd 0 = 0x40 :=
  ⟨rfl, rfl, rfl, rfl⟩

/-- C3 (amended): in READ_BLOCK the inbound byte is NOT ignored; it goes
through the default command-accumulation path of accept_byte: a 0xFF with an
empty command frame is ignored, while a non-0xFF byte (or any byte with
cmd_idx /= 0) is appended to the command frame, and a completed 6-byte frame
is dispatched via enqueue_response. -/
theorem claim3_read_block_accepts_commands (sd : Sd) (b : Nat)
    (hst : sd.state = READ_BLOCK) :
    (b = 0xFF ∧ sd.cmd_idx = 0 → accept_byte sd b = (sd, none)) ∧
    ((b ≠ 0xFF ∨ sd.cmd_idx ≠ 0) →
       accept_byte sd b =
         (if sd.cmd_idx + 1 = 6 then
            enqueue_response
              { sd with cmd := upd sd.cmd sd.cmd_idx b, cmd_idx := 0 }
          else { sd with cmd := upd sd.cmd sd.cmd_idx b,
                         cmd_idx := sd.cmd_idx + 1 }, none)) := by
  constructor
  · rintro ⟨hb, hi⟩
    simp [accept_byte, hst, hb, hi]
  · intro hcond
    simp only [accept_byte, hst]
    rw [if_pos hcond]

/-- C3 witness: the amended READ_BLOCK inbound theorem at a concrete card and
byte 0x40. -/
theorem claim3_witness :
    (mkCard READ_BLOCK).state = READ_BLOCK ∧
    ((0x40 = 0xFF ∧ (mkCard READ_BLOCK).cmd_idx = 0 →
        accept_byte (mkCard READ_BLOCK) 0x40 = (mkCard READ_BLOCK, none)) ∧
     ((0x40 ≠ 0xFF ∨ (mkCard READ_BLOCK).cmd_idx ≠ 0) →
        accept_byte (mkCard READ_BLOCK) 0x40 =
          (if (mkCard READ_BLOCK).cmd_idx + 1 = 6 then
             enqueue_response
               { mkCard READ_BLOCK with
                   cmd := upd (mkCard READ_BLOCK).cmd (mkCard READ_BLOCK).cmd_idx 0x40,
                   cmd_idx := 0 }
           else { mkCard READ_BLOCK with
                    cmd := upd (mkCard READ_BLOCK).cmd (mkCard READ_BLOCK).cmd_idx 0x40,
                    cmd_idx := (mkCard READ_BLOCK).cmd_idx + 1 }, none))) :=
  ⟨rfl, claim3_read_block_accepts_commands (mkCard READ_BLOCK) 0x40 rfl⟩

/-- C4 counterexample: a WRITE_CRC card with crc16 = 0x1234, crc16_fst = true
and enforce_crc = true that is fed 0x12 - precisely the HIGH byte
crc16 >> 8 the claim says is expected first - enqueues the CRC-error data
response 0x0b immediately after this first byte, because the code actually
compares the first byte against the low half crc16 & 0xFF = 0x34. -/
theorem claim4_counterexample :
    crcCard.state = WRITE_CRC ∧ crcCard.crc16_fst = true ∧
    crcCard.crc16 >>> 8 = 0x12 ∧
    (accept_byte crcCard 0x12).1.state = CMD_RESPONSE ∧
    (accept_byte crcCard 0x12).1.send 0 = 0x0b :=
  ⟨rfl, rfl, rfl, rfl, rfl⟩

/-- C4 (amended): in WRITE_CRC the first inbound CRC byte (crc16_fst true) is
compared against the LOW byte (crc16 & 0xFF) and the second against the HIGH
byte (crc16 >> 8) - the opposite of the claimed order. With enforce_crc
false (the only reachable configuration) the data response 0x05 is enqueued
only after the second byte and after_send_state is pointed at IDLE; with
enforce_crc true a mismatch enqueues the CRC-error response 0x0b immediately,
possibly already after the first byte. -/
theorem claim4_write_crc_behavior (sd : Sd) (b : Nat)
    (hst : sd.state = WRITE_CRC) :
    (sd.enforce_crc = false → sd.crc16_fst = true →
       accept_byte sd b =
         ({ sd with after_send_state := IDLE, crc16_fst := false }, none)) ∧
    (sd.enforce_crc = false → sd.crc16_fst = false →
       accept_byte sd b =
         ({ sd with after_send_state := IDLE, crc16_fst := false,
                    send := upd sd.send 0 0x05, send_len := 1,
                    state := CMD_RESPONSE }, none)) ∧
    (sd.enforce_crc = true → sd.crc16_fst = true → b ≠ sd.crc16 &&& 0xFF →
       accept_byte sd b =
         ({ sd with after_send_state := IDLE, crc16_fst := false,
                    send := upd sd.send 0 0x0b, send_len := 1,
                    state := CMD_RESPONSE }, none)) ∧
    (sd.enforce_crc = true → sd.crc16_fst = true → b = sd.crc16 &&& 0xFF →
       accept_byte sd b =
         ({ sd with after_send_state := IDLE, crc16_fst := false }, none)) ∧
    (sd.enforce_crc = true → sd.crc16_fst = false → b = sd.crc16 >>> 8 →
       accept_byte sd b =
         ({ sd with after_send_state := IDLE, crc16_fst := false,
                    send := upd sd.send 0 0x05, send_len := 1,
                    state := CMD_RESPONSE }, none)) ∧
    (sd.enforce_crc = true → sd.crc16_fst = false → b ≠ sd.crc16 >>> 8 →
       accept_byte sd b =
         ({ sd with after_send_state := IDLE, crc16_fst := false,
                    send := upd sd.send 0 0x0b, send_len := 1,
                    state := CMD_RESPONSE }, none)) := by
  refine ⟨?_, ?_, ?_, ?_, ?_, ?_⟩ <;> intro he hf
  · simp [accept_byte, enqueue_r1_inner, hst, he, hf]
  · simp [accept_byte, enqueue_r1_inner, hst, he, hf]
  · intro hb
    have hb' : ¬(sd.crc16 &&& 0xFF = b) := fun h => hb h.symm
    simp [accept_byte, enqueue_r1_inner, hst, he, hf, hb']
  · intro hb
    have hb' : sd.crc16 &&& 0xFF = b := hb.symm
    simp [accept_byte, enqueue_r1_inner, hst, he, hf, hb']
  · intro hb
    have hb' : sd.crc16 >>> 8 = b := hb.symm
    simp [accept_byte, enqueue_r1_inner, hst, he, hf, hb']
  · intro hb
    have hb' : ¬(sd.crc16 >>> 8 = b) := fun h => hb h.symm
    simp [accept_byte, enqueue_r1_inner, hst, he, hf, hb']

/-- C4 witness: the amended WRITE_CRC theorem instantiated at a concrete card
and byte. -/
theorem claim4_witness :
    (mkCard WRITE_CRC).state = WRITE_CRC ∧
    ((mkCard WRITE_CRC).enforce_crc = false → (mkCard WRITE_CRC).crc16_fst = true →
       accept_byte (mkCard WRITE_CRC) 0xAB =
         ({ mkCard WRITE_CRC with after_send_state := IDLE, crc16_fst := false },
          none)) :=
  ⟨rfl, (claim4_write_crc_behavior (mkCard WRITE_CRC) 0xAB rfl).1⟩

/-- C5 (confirmed): when a CMD17/18/24/25 frame is dispatched from a state
that reaches the CMD switch (IDLE or READ_BLOCK) with a 32-bit argument
greater than capacity - 512 (capacity at least one block and below 2^64),
the card enqueues the address-error R1 byte 0x20 as a one-byte response and
head, bytes_xfrd, crc16 and multiple_block are left unchanged. -/
theorem claim5_address_error (sd : Sd)
    (hst : sd.state = IDLE ∨ sd.state = READ_BLOCK)
    (hci : command_index sd = 17 ∨ command_index sd = 18 ∨
           command_index sd = 24 ∨ command_index sd = 25)
    (hcap : 512 ≤ sd.capacity) (hcap64 : sd.capacity < 18446744073709551616)
    (harg : command_arg sd > sd.capacity - 512) :
    (enqueue_response sd).send 0 = 0x20 ∧ (enqueue_response sd).send_len = 1 ∧
    (enqueue_response sd).state = CMD_RESPONSE ∧
    (enqueue_response sd).head = sd.head ∧
    (enqueue_response sd).bytes_xfrd = sd.bytes_xfrd ∧
    (enqueue_response sd).crc16 = sd.crc16 ∧
    (enqueue_response sd).multiple_block = sd.multiple_block := by
  have hlim : capacity_minus_block sd.capacity = sd.capacity - 512 :=
    capacity_minus_block_eq hcap hcap64
  rcases hst with h | h <;> rcases hci with hc | hc | hc | hc <;>
    simp only [command_index] at hc <;>
    simp [enqueue_response, command_index, command_arg, enqueue_r1_inner,
          h, hc, hlim, upd] at harg ⊢ <;>
    simp [harg]

/-- C5 witness: the address-error theorem at a concrete 1024-byte card with a
CMD17 frame whose argument is 0xFF000000. -/
theorem claim5_witness :
    (addrCard.state = IDLE ∨ addrCard.state = READ_BLOCK) ∧
    command_index addrCard = 17 ∧
    512 ≤ addrCard.capacity ∧ addrCard.capacity < 18446744073709551616 ∧
    command_arg addrCard > addrCard.capacity - 512 ∧
    ((enqueue_response addrCard).send 0 = 0x20 ∧
     (enqueue_response addrCard).send_len = 1 ∧
     (enqueue_response addrCard).state = CMD_RESPONSE ∧
     (enqueue_response addrCard).head = addrCard.head ∧
     (enqueue_response addrCard).bytes_xfrd = addrCard.bytes_xfrd ∧
     (enqueue_response addrCard).crc16 = addrCard.crc16 ∧
     (enqueue_response addrCard).multiple_block = addrCard.multiple_block) :=
  ⟨Or.inl rfl, by decide, by decide, by decide, by decide,
   claim5_address_error addrCard (Or.inl rfl) (Or.inl (by decide))
     (by decide) (by decide) (by decide)⟩

/-- C7 counterexample: from a freshly initialized selected card, after one
0x40 byte the card is in BOOT with cmd_idx = 1; sending 0xFF then mutates
the card (cmd_idx becomes 2, the 0xFF is accumulated into the frame) even
though the state is not CMD_RESPONSE, refuting frame idempotence of 0xFF as
claimed. -/
theorem claim7_counterexample :
    (runSpi bootCard1024 [0x40]).2.state = BOOT ∧
    (runSpi bootCard1024 [0x40]).2.cmd_idx = 1 ∧
    (spi_hook (runSpi bootCard1024 [0x40]).2 0xFF).2.cmd_idx = 2 :=
  ⟨rfl, rfl, rfl⟩

/-- C7 (amended): an SPI event with inbound 0xFF mutates nothing when the
card rests in BOOT, SPI, SPI_ACMD, IDLE, IDLE_ACMD or WRITE_STBT with an
empty command frame (cmd_idx = 0); in CMD_RESPONSE (with a non-write-path
after_send_state, the only reachable kind) it only drains: send_idx
advances, and on reaching send_len the card moves to after_send_state with
send_idx reset. In READ_BLOCK, WRITE_LISTEN and WRITE_CRC, or mid-frame,
0xFF does mutate the card - see the counterexample. -/
theorem claim7_ff_effect (sd : Sd) (hcs : sd.cs = true) (hidx : sd.cmd_idx = 0) :
    ((sd.state = BOOT ∨ sd.state = SPI ∨ sd.state = SPI_ACMD ∨ sd.state = IDLE ∨
      sd.state = IDLE_ACMD ∨ sd.state = WRITE_STBT) →
       spi_hook sd 0xFF = ([0xFF], sd)) ∧
    ((sd.state = CMD_RESPONSE ∧ sd.after_send_state ≠ WRITE_LISTEN ∧
      sd.after_send_state ≠ WRITE_CRC) →
       spi_hook sd 0xFF =
         ([sd.send sd.send_idx],
          if sd.send_idx + 1 = sd.send_len then
            { sd with state := sd.after_send_state, after_send_state := IDLE,
                      send_idx := 0 }
          else { sd with send_idx := sd.send_idx + 1 })) := by
  constructor
  · rintro (h | h | h | h | h | h) <;>
      simp [spi_hook, send_byte, accept_byte, hcs, h, hidx]
  · rintro ⟨h, ha1, ha2⟩
    by_cases hd : sd.send_idx + 1 = sd.send_len
    · rw [if_pos hd]
      cases hafter : sd.after_send_state <;>
        simp_all [spi_hook, send_byte, accept_byte, hcs, h, hidx, hd]
    · rw [if_neg hd]
      simp [spi_hook, send_byte, accept_byte, hcs, h, hd]

/-- C7 witness: the amended 0xFF theorem at a concrete IDLE card. -/
theorem claim7_witness :
    (mkCard IDLE).cs = true ∧ (mkCard IDLE).cmd_idx = 0 ∧
    (((mkCard IDLE).state = BOOT ∨ (mkCard IDLE).state = SPI ∨
      (mkCard IDLE).state = SPI_ACMD ∨ (mkCard IDLE).state = IDLE ∨
      (mkCard IDLE).state = IDLE_ACMD ∨ (mkCard IDLE).state = WRITE_STBT) →
       spi_hook (mkCard IDLE) 0xFF = ([0xFF], mkCard IDLE)) :=
  ⟨rfl, rfl, (claim7_ff_effect (mkCard IDLE) rfl rfl).1⟩

/-- C8 counterexample: feeding a full CMD0 frame to a freshly initialized
selected card leaves it in CMD_RESPONSE with send_len 1, while a freshly
constructed card is in BOOT with send_len 0 - so the post-CMD0 card is not
equivalent to a fresh card even ignoring cs and the image. -/
theorem claim8_counterexample :
    (runSpi bootCard1024 [0x40, 0x00, 0x00, 0x00, 0x00, 0x95]).2.state =
      CMD_RESPONSE ∧
    (runSpi bootCard1024 [0x40, 0x00, 0x00, 0x00, 0x00, 0x95]).2.send_len = 1 ∧
    (sd_fresh (fun _ => 0) 1024).state = BOOT ∧
    (sd_fresh (fun _ => 0) 1024).send_len = 0 :=
  ⟨rfl, rfl, rfl, rfl⟩

/-- C8 (amended): dispatching a CMD0 frame from BOOT, IDLE or READ_BLOCK
resets the framing fields to their freshly-constructed values (enforce_crc
false, cmd_idx, send_idx 0) while preserving cs, the image, capacity, head,
bytes_xfrd, crc16, crc16_fst, multiple_block and the cmd buffer contents,
and enqueues the idle R1 0x01: the card is left in CMD_RESPONSE with
send_len 1 and after_send_state SPI - not literally equal to a fresh card,
and from SPI, SPI_ACMD or IDLE_ACMD a CMD0 is answered as an illegal
command without any reset. -/
theorem claim8_cmd0_dispatch (sd : Sd)
    (hst : sd.state = BOOT ∨ sd.state = IDLE ∨ sd.state = READ_BLOCK)
    (hci : command_index sd = 0) :
    enqueue_response sd =
      { sd with enforce_crc := false, cmd_idx := 0, send_idx := 0,
                send := upd sd.send 0 0x01, send_len := 1,
                state := CMD_RESPONSE, after_send_state := SPI } := by
  simp only [command_index] at hci
  rcases hst with h | h | h <;>
    simp [enqueue_response, command_index, sd_reset, enqueue_r1_inner, h, hci]

/-- C8 witness: the amended CMD0 theorem at a concrete IDLE card whose empty
command frame parses as CMD0. -/
theorem claim8_witness :
    ((mkCard IDLE).state = BOOT ∨ (mkCard IDLE).state = IDLE ∨
     (mkCard IDLE).state = READ_BLOCK) ∧
    command_index (mkCard IDLE) = 0 ∧
    enqueue_response (mkCard IDLE) =
      { mkCard IDLE with enforce_crc := false, cmd_idx := 0, send_idx := 0,
                         send := upd (mkCard IDLE).send 0 0x01, send_len := 1,
                         state := CMD_RESPONSE, after_send_state := SPI } :=
  ⟨Or.inr (Or.inl rfl), rfl,
   claim8_cmd0_dispatch (mkCard IDLE) (Or.inr (Or.inl rfl)) rfl⟩

theorem inv_mk_resp (sd : Sd) (snd : Nat → Nat) (L : Nat) (a : SdState)
    (hinv : Inv sd) (hL1 : 1 ≤ L) (hL6 : L ≤ 6)
    (ha1 : a ≠ CMD_RESPONSE) (ha2 : a ≠ WRITE_LISTEN) (ha3 : a ≠ WRITE_CRC)
    (hab : activeXfer a →
       sd.bytes_xfrd < 512 ∧ sd.head + (512 - sd.bytes_xfrd) ≤ sd.capacity) :
    Inv { sd with after_send_state := a, send_idx := 0, send := snd,
                  send_len := L, state := CMD_RESPONSE } := by
  obtain ⟨h1, h2, h3, h4, h5, h6, h7, h8, h9, h10, h11, h12, h13, h14⟩ := hinv
  refine ⟨h1, h2, hL6, fun _ => (by omega : (0 : Nat) < L),
          fun hne => absurd rfl hne, h6, h7, h8,
          h9, ha1, ha2, ha3, ?_, ?_⟩
  · rintro (hact | ⟨_, hact⟩)
    · rcases hact with hx | hx | hx <;> exact absurd hx (by simp)
    · exact hab hact
  · rintro (hx | hx | hx | hx) <;> exact absurd hx (by simp)

theorem inv_mk_resp_xfer (sd : Sd) (snd : Nat → Nat) (L : Nat) (a : SdState)
    (arg : Nat) (mb : Bool) (hinv : Inv sd) (hL1 : 1 ≤ L) (hL6 : L ≤ 6)
    (ha : a = READ_BLOCK ∨ a = WRITE_STBT)
    (harg : arg + 512 ≤ sd.capacity) :
    Inv { sd with after_send_state := a, send_idx := 0, send := snd,
                  send_len := L, state := CMD_RESPONSE, head := arg,
                  bytes_xfrd := 0, crc16 := 0xFFFF, multiple_block := mb } := by
  obtain ⟨h1, h2, h3, h4, h5, h6, h7, h8, h9, h10, h11, h12, h13, h14⟩ := hinv
  have ha1 : a ≠ CMD_RESPONSE := by
    rcases ha with h | h <;> rw [h] <;> exact fun hx => SdState.noConfusion hx
  have ha2 : a ≠ WRITE_LISTEN := by
    rcases ha with h | h <;> rw [h] <;> exact fun hx => SdState.noConfusion hx
  have ha3 : a ≠ WRITE_CRC := by
    rcases ha with h | h <;> rw [h] <;> exact fun hx => SdState.noConfusion hx
  refine ⟨h1, h2, hL6, fun _ => (by omega : (0 : Nat) < L),
          fun hne => absurd rfl hne, h6,
          (by omega : (0 : Nat) ≤ 512), (by omega : arg ≤ sd.capacity),
          h9, ha1, ha2, ha3, ?_, ?_⟩
  · rintro (hact | ⟨_, hact⟩)
    · rcases hact with hx | hx | hx <;> exact absurd hx (by simp)
    · exact ⟨(by omega : (0 : Nat) < 512),
             (by omega : arg + (512 - 0) ≤ sd.capacity)⟩
  · rintro (hx | hx | hx | hx) <;> exact absurd hx (by simp)

theorem inv_mk_resp_cmd0 (sd : Sd) (hinv : Inv sd) :
    Inv { sd with enforce_crc := false, cmd_idx := 0, send_idx := 0,
                  send := upd sd.send 0 0x01, send_len := 1,
                  state := CMD_RESPONSE, after_send_state := SPI } := by
  obtain ⟨h1, h2, h3, h4, h5, h6, h7, h8, h9, h10, h11, h12, h13, h14⟩ := hinv
  refine ⟨h1, h2, (by omega : (1 : Nat) ≤ 6), fun _ => (by omega : (0 : Nat) < 1),
          fun hne => absurd rfl hne,
          (by omega : (0 : Nat) ≤ 5), h7, h8, rfl, fun hx => SdState.noConfusion hx,
          fun hx => SdState.noConfusion hx, fun hx => SdState.noConfusion hx,
          ?_, ?_⟩
  · rintro (hact | ⟨_, hact⟩)
    · rcases hact with hx | hx | hx <;> exact absurd hx (by simp)
    · rcases hact with hx | hx | hx <;> exact absurd hx (by simp)
  · rintro (hx | hx | hx | hx) <;> exact absurd hx (by simp)

theorem enqueue_response_cmd0 (sd : Sd)
    (hst : sd.state = BOOT ∨ sd.state = IDLE ∨ sd.state = READ_BLOCK)
    (hci : command_index sd = 0) :
    enqueue_response sd =
      { sd with enforce_crc := false, cmd_idx := 0, send_idx := 0,
                send := upd sd.send 0 0x01, send_len := 1,
                state := CMD_RESPONSE, after_send_state := SPI } := by
  simp only [command_index] at hci
  rcases hst with h | h | h <;>
    simp [enqueue_response, command_index, sd_reset, enqueue_r1_inner, h, hci]

theorem enqueue_response_boot_illegal (sd : Sd) (hst : sd.state = BOOT)
    (hci : command_index sd ≠ 0) :
    enqueue_response sd =
      { sd with after_send_state := BOOT, send_idx := 0,
                send := upd sd.send 0 0x04, send_len := 1,
                state := CMD_RESPONSE } := by
  simp only [command_index] at hci
  simp [enqueue_response, command_index, enqueue_r1_inner, hst, hci]

theorem enqueue_response_spi (sd : Sd) (hst : sd.state = SPI) :
    enqueue_response sd =
      (if command_index sd = 55 then
         { sd with after_send_state := SPI_ACMD, send_idx := 0,
                   send := upd sd.send 0 0x01, send_len := 1,
                   state := CMD_RESPONSE }
       else
         { sd with after_send_state := SPI, send_idx := 0,
                   send := upd sd.send 0 0x04, send_len := 1,
                   state := CMD_RESPONSE }) := by
  by_cases hci : command_index sd = 55 <;>
    simp only [command_index] at hci <;>
    simp [enqueue_response, command_index, enqueue_r1_inner, hst, hci]

theorem enqueue_response_spi_acmd (sd : Sd) (hst : sd.state = SPI_ACMD) :
    enqueue_response sd =
      (if command_index sd = 41 then
         { sd with after_send_state := IDLE, send_idx := 0,
                   send := upd sd.send 0 0x00, send_len := 1,
                   state := CMD_RESPONSE }
       else
         { sd with after_send_state := SPI_ACMD, send_idx := 0,
                   send := upd sd.send 0 0x04, send_len := 1,
                   state := CMD_RESPONSE }) := by
  by_cases hci : command_index sd = 41 <;>
    simp only [command_index] at hci <;>
    simp [enqueue_response, command_index, enqueue_r1_inner, hst, hci]

theorem enqueue_response_idle_acmd (sd : Sd) (hst : sd.state = IDLE_ACMD) :
    enqueue_response sd =
      { sd with after_send_state := IDLE_ACMD, send_idx := 0,
                send := upd sd.send 0 0x04, send_len := 1,
                state := CMD_RESPONSE } := by
  simp [enqueue_response, command_index, enqueue_r1_inner, hst]

theorem enqueue_response_cmd13 (sd : Sd)
    (hst : sd.state = IDLE ∨ sd.state = READ_BLOCK)
    (hci : command_index sd = 13) :
    enqueue_response sd =
      { sd with after_send_state := sd.state, send_idx := 0,
                send := upd (upd sd.send 0 0x00) 1 0x00, send_len := 2,
                state := CMD_RESPONSE } := by
  simp only [command_index] at hci
  rcases hst with h | h <;>
    simp [enqueue_response, command_index, enqueue_r2, h, hci]

theorem enqueue_response_addr_err (sd : Sd)
    (hst : sd.state = IDLE ∨ sd.state = READ_BLOCK)
    (hci : command_index sd = 17 ∨ command_index sd = 18 ∨
           command_index sd = 24 ∨ command_index sd = 25)
    (herr : command_arg sd > capacity_minus_block sd.capacity) :
    enqueue_response sd =
      { sd with after_send_state := sd.state, send_idx := 0,
                send := upd sd.send 0 0x20, send_len := 1,
                state := CMD_RESPONSE } := by
  simp only [command_arg] at herr
  rcases hst with h | h <;> rcases hci with hc | hc | hc | hc <;>
    simp only [command_index] at hc <;>
    simp [enqueue_response, command_index, command_arg, enqueue_r1_inner,
          h, hc, herr]

theorem enqueue_response_cmd17_any (sd : Sd)
    (hst : sd.state = IDLE ∨ sd.state = READ_BLOCK)
    (hci : command_index sd = 17)
    (hok : ¬(command_arg sd > capacity_minus_block sd.capacity)) :
    enqueue_response sd =
      { sd with after_send_state := READ_BLOCK, send_idx := 0,
                head := command_arg sd, bytes_xfrd := 0, crc16 := 0xFFFF,
                multiple_block := false,
                send := upd (upd sd.send 0 0x00) 1 0xFE, send_len := 2,
                state := CMD_RESPONSE } := by
  simp only [command_arg] at hok
  simp only [command_index] at hci
  rcases hst with h | h <;>
    simp [enqueue_response, command_index, command_arg, h, hci, hok]

theorem enqueue_response_cmd18_any (sd : Sd)
    (hst : sd.state = IDLE ∨ sd.state = READ_BLOCK)
    (hci : command_index sd = 18)
    (hok : ¬(command_arg sd > capacity_minus_block sd.capacity)) :
    enqueue_response sd =
      { sd with after_send_state := READ_BLOCK, send_idx := 0,
                head := command_arg sd, bytes_xfrd := 0, crc16 := 0xFFFF,
                multiple_block := true,
                send := upd (upd sd.send 0 0x00) 1 0xFE, send_len := 2,
                state := CMD_RESPONSE } := by
  simp only [command_arg] at hok
  simp only [command_index] at hci
  rcases hst with h | h <;>
    simp [enqueue_response, command_index, command_arg, h, hci, hok]

theorem enqueue_response_cmd24_any (sd : Sd)
    (hst : sd.state = IDLE ∨ sd.state = READ_BLOCK)
    (hci : command_index sd = 24)
    (hok : ¬(command_arg sd > capacity_minus_block sd.capacity)) :
    enqueue_response sd =
      { sd with after_send_state := WRITE_STBT, send_idx := 0,
                head := command_arg sd, bytes_xfrd := 0, crc16 := 0xFFFF,
                multiple_block := false, send := upd sd.send 0 0x00,
                send_len := 1, state := CMD_RESPONSE } := by
  simp only [command_arg] at hok
  simp only [command_index] at hci
  rcases hst with h | h <;>
    simp [enqueue_response, command_index, command_arg, enqueue_r1_inner,
          h, hci, hok]

theorem enqueue_response_cmd25_any (sd : Sd)
    (hst : sd.state = IDLE ∨ sd.state = READ_BLOCK)
    (hci : command_index sd = 25)
    (hok : ¬(command_arg sd > capacity_minus_block sd.capacity)) :
    enqueue_response sd =
      { sd with after_send_state := WRITE_STBT, send_idx := 0,
                head := command_arg sd, bytes_xfrd := 0, crc16 := 0xFFFF,
                multiple_block := true, send := upd sd.send 0 0x00,
                send_len := 1, state := CMD_RESPONSE } := by
  simp only [command_arg] at hok
  simp only [command_index] at hci
  rcases hst with h | h <;>
    simp [enqueue_response, command_index, command_arg, enqueue_r1_inner,
          h, hci, hok]

theorem enqueue_response_cmd55 (sd : Sd)
    (hst : sd.state = IDLE ∨ sd.state = READ_BLOCK)
    (hci : command_index sd = 55) :
    enqueue_response sd =
      { sd with after_send_state := IDLE_ACMD, send_idx := 0,
                send := upd sd.send 0 0x00, send_len := 1,
                state := CMD_RESPONSE } := by
  simp only [command_index] at hci
  rcases hst with h | h <;>
    simp [enqueue_response, command_index, enqueue_r1_inner, h, hci]

theorem enqueue_response_cmd58 (sd : Sd)
    (hst : sd.state = IDLE ∨ sd.state = READ_BLOCK)
    (hci : command_index sd = 58) :
    enqueue_response sd =
      { sd with after_send_state := sd.state, send_idx := 0,
                send := upd (upd (upd (upd (upd sd.send 0 0x00) 1 0x81)
                         2 0xFF) 3 0x00) 4 0x00,
                send_len := 5, state := CMD_RESPONSE } := by
  simp only [command_index] at hci
  rcases hst with h | h <;>
    simp [enqueue_response, command_index, enqueue_r3, enqueue_r1_inner, h, hci]

theorem enqueue_response_illegal (sd : Sd)
    (hst : sd.state = IDLE ∨ sd.state = READ_BLOCK)
    (hc0 : command_index sd ≠ 0) (hc13 : command_index sd ≠ 13)
    (hc17 : command_index sd ≠ 17) (hc18 : command_index sd ≠ 18)
    (hc24 : command_index sd ≠ 24) (hc25 : command_index sd ≠ 25)
    (hc55 : command_index sd ≠ 55) (hc58 : command_index sd ≠ 58) :
    enqueue_response sd =
      { sd with after_send_state := sd.state, send_idx := 0,
                send := upd sd.send 0 0x04, send_len := 1,
                state := CMD_RESPONSE } := by
  simp only [command_index] at hc0 hc13 hc17 hc18 hc24 hc25 hc55 hc58
  rcases hst with h | h <;>
    simp [enqueue_response, command_index, enqueue_r1_inner, h,
          hc0, hc13, hc17, hc18, hc24, hc25, hc55, hc58]

theorem inv_enqueue_response (sd : Sd)
    (hstate : sd.state = BOOT ∨ sd.state = SPI ∨ sd.state = SPI_ACMD ∨
              sd.state = IDLE ∨ sd.state = IDLE_ACMD ∨ sd.state = READ_BLOCK)
    (hinv : Inv sd) : Inv (enqueue_response sd) := by
  obtain ⟨h1, h2, h3, h4, h5, h6, h7, h8, h9, h10, h11, h12, h13, h14⟩ := id hinv
  have hlim := capacity_minus_block_eq h1 h2
  have hio_main : (sd.state = IDLE ∨ sd.state = READ_BLOCK) →
      Inv (enqueue_response sd) := by
    intro hio
    have hsne1 : sd.state ≠ CMD_RESPONSE := by
      rcases hio with h | h <;> rw [h] <;> exact fun hx => SdState.noConfusion hx
    have hsne2 : sd.state ≠ WRITE_LISTEN := by
      rcases hio with h | h <;> rw [h] <;> exact fun hx => SdState.noConfusion hx
    have hsne3 : sd.state ≠ WRITE_CRC := by
      rcases hio with h | h <;> rw [h] <;> exact fun hx => SdState.noConfusion hx
    have hcur : activeXfer sd.state →
        sd.bytes_xfrd < 512 ∧ sd.head + (512 - sd.bytes_xfrd) ≤ sd.capacity :=
      fun hact => h13 (Or.inl hact)
    by_cases h0 : command_index sd = 0
    · rw [enqueue_response_cmd0 sd
            (hio.elim (fun hh => Or.inr (Or.inl hh))
                      (fun hh => Or.inr (Or.inr hh))) h0]
      exact inv_mk_resp_cmd0 sd hinv
    by_cases hc13 : command_index sd = 13
    · rw [enqueue_response_cmd13 sd hio hc13]
      exact inv_mk_resp sd _ 2 sd.state hinv (by omega) (by omega)
        hsne1 hsne2 hsne3 hcur
    by_cases hc17 : command_index sd = 17
    · by_cases herr : command_arg sd > capacity_minus_block sd.capacity
      · rw [enqueue_response_addr_err sd hio (Or.inl hc17) herr]
        exact inv_mk_resp sd _ 1 sd.state hinv (by omega) (by omega)
          hsne1 hsne2 hsne3 hcur
      · rw [enqueue_response_cmd17_any sd hio hc17 herr]
        exact inv_mk_resp_xfer sd _ 2 READ_BLOCK (command_arg sd) false hinv
          (by omega) (by omega) (Or.inl rfl) (by rw [hlim] at herr; omega)
    by_cases hc18 : command_index sd = 18
    · by_cases herr : command_arg sd > capacity_minus_block sd.capacity
      · rw [enqueue_response_addr_err sd hio (Or.inr (Or.inl hc18)) herr]
        exact inv_mk_resp sd _ 1 sd.state hinv (by omega) (by omega)
          hsne1 hsne2 hsne3 hcur
      · rw [enqueue_response_cmd18_any sd hio hc18 herr]
        exact inv_mk_resp_xfer sd _ 2 READ_BLOCK (command_arg sd) true hinv
          (by omega) (by omega) (Or.inl rfl) (by rw [hlim] at herr; omega)
    by_cases hc24 : command_index sd = 24
    · by_cases herr : command_arg sd > capacity_minus_block sd.capacity
      · rw [enqueue_response_addr_err sd hio (Or.inr (Or.inr (Or.inl hc24))) herr]
        exact inv_mk_resp sd _ 1 sd.state hinv (by omega) (by omega)
          hsne1 hsne2 hsne3 hcur
      · rw [enqueue_response_cmd24_any sd hio hc24 herr]
        exact inv_mk_resp_xfer sd _ 1 WRITE_STBT (command_arg sd) false hinv
          (by omega) (by omega) (Or.inr rfl) (by rw [hlim] at herr; omega)
    by_cases hc25 : command_index sd = 25
    · by_cases herr : command_arg sd > capacity_minus_block sd.capacity
      · rw [enqueue_response_addr_err sd hio
            (Or.inr (Or.inr (Or.inr hc25))) herr]
        exact inv_mk_resp sd _ 1 sd.state hinv (by omega) (by omega)
          hsne1 hsne2 hsne3 hcur
      · rw [enqueue_response_cmd25_any sd hio hc25 herr]
        exact inv_mk_resp_xfer sd _ 1 WRITE_STBT (command_arg sd) true hinv
          (by omega) (by omega) (Or.inr rfl) (by rw [hlim] at herr; omega)
    by_cases hc55 : command_index sd = 55
    · rw [enqueue_response_cmd55 sd hio hc55]
      exact inv_mk_resp sd _ 1 IDLE_ACMD hinv (by omega) (by omega)
        (fun hx => SdState.noConfusion hx) (fun hx => SdState.noConfusion hx)
        (fun hx => SdState.noConfusion hx)
        (fun hact => by
          rcases hact with hx | hx | hx <;> exact absurd hx (by simp))
    by_cases hc58 : command_index sd = 58
    · rw [enqueue_response_cmd58 sd hio hc58]
      exact inv_mk_resp sd _ 5 sd.state hinv (by omega) (by omega)
        hsne1 hsne2 hsne3 hcur
    · rw [enqueue_response_illegal sd hio h0 hc13 hc17 hc18 hc24 hc25 hc55 hc58]
      exact inv_mk_resp sd _ 1 sd.state hinv (by omega) (by omega)
        hsne1 hsne2 hsne3 hcur
  rcases hstate with h | h | h | h | h | h
  · by_cases h0 : command_index sd = 0
    · rw [enqueue_response_cmd0 sd (Or.inl h) h0]
      exact inv_mk_resp_cmd0 sd hinv
    · rw [enqueue_response_boot_illegal sd h h0]
      exact inv_mk_resp sd _ 1 BOOT hinv (by omega) (by omega)
        (fun hx => SdState.noConfusion hx) (fun hx => SdState.noConfusion hx)
        (fun hx => SdState.noConfusion hx)
        (fun hact => by
          rcases hact with hx | hx | hx <;> exact absurd hx (by simp))
  · rw [enqueue_response_spi sd h]
    split_ifs
    · exact inv_mk_resp sd _ 1 SPI_ACMD hinv (by omega) (by omega)
        (fun hx => SdState.noConfusion hx) (fun hx => SdState.noConfusion hx)
        (fun hx => SdState.noConfusion hx)
        (fun hact => by
          rcases hact with hx | hx | hx <;> exact absurd hx (by simp))
    · exact inv_mk_resp sd _ 1 SPI hinv (by omega) (by omega)
        (fun hx => SdState.noConfusion hx) (fun hx => SdState.noConfusion hx)
        (fun hx => SdState.noConfusion hx)
        (fun hact => by
          rcases hact with hx | hx | hx <;> exact absurd hx (by simp))
  · rw [enqueue_response_spi_acmd sd h]
    split_ifs
    · exact inv_mk_resp sd _ 1 IDLE hinv (by omega) (by omega)
        (fun hx => SdState.noConfusion hx) (fun hx => SdState.noConfusion hx)
        (fun hx => SdState.noConfusion hx)
        (fun hact => by
          rcases hact with hx | hx | hx <;> exact absurd hx (by simp))
    · exact inv_mk_resp sd _ 1 SPI_ACMD hinv (by omega) (by omega)
        (fun hx => SdState.noConfusion hx) (fun hx => SdState.noConfusion hx)
        (fun hx => SdState.noConfusion hx)
        (fun hact => by
          rcases hact with hx | hx | hx <;> exact absurd hx (by simp))
  · exact hio_main (Or.inl h)
  · rw [enqueue_response_idle_acmd sd h]
    exact inv_mk_resp sd _ 1 IDLE_ACMD hinv (by omega) (by omega)
      (fun hx => SdState.noConfusion hx) (fun hx => SdState.noConfusion hx)
      (fun hx => SdState.noConfusion hx)
      (fun hact => by
        rcases hact with hx | hx | hx <;> exact absurd hx (by simp))
  · exact hio_main (Or.inr h)

theorem inv_cmd_set (sd : Sd) (f : Nat → Nat) (k : Nat) (hk : k ≤ 5)
    (hinv : Inv sd) : Inv { sd with cmd := f, cmd_idx := k } := by
  obtain ⟨h1, h2, h3, h4, h5, h6, h7, h8, h9, h10, h11, h12, h13, h14⟩ := hinv
  exact ⟨h1, h2, h3, h4, h5, hk, h7, h8, h9, h10, h11, h12, h13, h14⟩

theorem inv_send_byte (sd : Sd) (hinv : Inv sd) : Inv (send_byte sd).2 := by
  obtain ⟨h1, h2, h3, h4, h5, h6, h7, h8, h9, h10, h11, h12, h13, h14⟩ := id hinv
  cases hst : sd.state
  case BOOT => simp only [send_byte, hst]; exact hinv
  case SPI => simp only [send_byte, hst]; exact hinv
  case SPI_ACMD => simp only [send_byte, hst]; exact hinv
  case IDLE => simp only [send_byte, hst]; exact hinv
  case IDLE_ACMD => simp only [send_byte, hst]; exact hinv
  case WRITE_STBT => simp only [send_byte, hst]; exact hinv
  case WRITE_LISTEN => simp only [send_byte, hst]; exact hinv
  case WRITE_CRC => simp only [send_byte, hst]; exact hinv
  case READ_BLOCK =>
    have hact : sd.bytes_xfrd < 512 ∧
        sd.head + (512 - sd.bytes_xfrd) ≤ sd.capacity :=
      h13 (Or.inl (Or.inl hst))
    have hafter : sd.after_send_state = IDLE := h14 (Or.inl hst)
    have hsidx0 : sd.send_idx = 0 := by
      apply h5
      rw [hst]
      exact fun hx => SdState.noConfusion hx
    simp only [send_byte, hst, enqueue_crc16]
    split_ifs with hfull
    · have hfull' : sd.bytes_xfrd + 1 = 512 := hfull
      refine ⟨h1, h2, (by omega : (2 : Nat) ≤ 6),
          fun _ => (by omega : sd.send_idx < 2),
          fun hne => absurd rfl hne, h6, (by omega : sd.bytes_xfrd + 1 ≤ 512),
          (by omega : sd.head + 1 ≤ sd.capacity), h9,
          (by rw [hafter]; exact fun hx => SdState.noConfusion hx),
          (by rw [hafter]; exact fun hx => SdState.noConfusion hx),
          (by rw [hafter]; exact fun hx => SdState.noConfusion hx), ?_, ?_⟩
      · rintro (hact2 | ⟨_, hact2⟩)
        · rcases hact2 with hx | hx | hx <;> exact absurd hx (by simp)
        · have hact3 : activeXfer sd.after_send_state := hact2
          rw [hafter] at hact3
          rcases hact3 with hx | hx | hx <;> exact absurd hx (by simp)
      · rintro (hx | hx | hx | hx) <;> exact absurd hx (by simp)
    · refine ⟨h1, h2, h3, fun hne => absurd hne (by simp),
          fun _ => hsidx0, h6, (by omega : sd.bytes_xfrd + 1 ≤ 512),
          (by omega : sd.head + 1 ≤ sd.capacity), h9, h10, h11, h12, ?_, ?_⟩
      · rintro (hact2 | ⟨heq, _⟩)
        · have hfull' : sd.bytes_xfrd + 1 ≠ 512 := hfull
          obtain ⟨hb1, hb2⟩ := hact
          exact ⟨(by omega : sd.bytes_xfrd + 1 < 512),
                 (by omega : sd.head + 1 + (512 - (sd.bytes_xfrd + 1)) ≤
                    sd.capacity)⟩
        · exact absurd heq (by simp)
      · intro _
        exact hafter
  case CMD_RESPONSE =>
    have hidxlen : sd.send_idx < sd.send_len := h4 hst
    simp only [send_byte, hst]
    split_ifs with hdone
    · have hdone' : sd.send_idx + 1 = sd.send_len := hdone
      refine ⟨h1, h2, h3, fun hx => absurd hx h10, fun _ => rfl, h6, h7, h8,
          h9, (fun hx => SdState.noConfusion hx),
          (fun hx => SdState.noConfusion hx),
          (fun hx => SdState.noConfusion hx), ?_, ?_⟩
      · rintro (hact2 | ⟨heq, _⟩)
        · exact h13 (Or.inr ⟨hst, hact2⟩)
        · exact absurd heq h10
      · intro _
        rfl
    · have hdone' : sd.send_idx + 1 ≠ sd.send_len := hdone
      refine ⟨h1, h2, h3, fun _ => (by omega : sd.send_idx + 1 < sd.send_len),
          fun hne => absurd rfl hne, h6, h7, h8, h9, h10, h11, h12, ?_, ?_⟩
      · rintro (hact2 | ⟨_, hact2⟩)
        · rcases hact2 with hx | hx | hx <;> exact absurd hx (by simp)
        · exact h13 (Or.inr ⟨hst, hact2⟩)
      · rintro (hx | hx | hx | hx) <;> exact absurd hx (by simp)

theorem inv_accept_default (sd : Sd) (b : Nat)
    (hstate : sd.state = BOOT ∨ sd.state = SPI ∨ sd.state = SPI_ACMD ∨
              sd.state = IDLE ∨ sd.state = IDLE_ACMD ∨ sd.state = READ_BLOCK)
    (hinv : Inv sd) : Inv (accept_byte sd b).1 := by
  obtain ⟨h1, h2, h3, h4, h5, h6, h7, h8, h9, h10, h11, h12, h13, h14⟩ := id hinv
  rcases hstate with h | h | h | h | h | h <;>
  · simp only [accept_byte, h]
    rw [← h]
    split_ifs with hc hfull
    · refine inv_enqueue_response _ ?_ (inv_cmd_set sd _ 0 (by omega) hinv)
      simp only [h]
      simp
    · have hfull' : sd.cmd_idx + 1 ≠ 6 := hfull
      exact inv_cmd_set sd _ (sd.cmd_idx + 1) (by omega) hinv
    · exact hinv

theorem inv_accept_byte (sd : Sd) (b : Nat) (hinv : Inv sd) :
    Inv (accept_byte sd b).1 := by
  obtain ⟨h1, h2, h3, h4, h5, h6, h7, h8, h9, h10, h11, h12, h13, h14⟩ := id hinv
  cases hst : sd.state
  case BOOT => exact inv_accept_default sd b (Or.inl hst) hinv
  case SPI => exact inv_accept_default sd b (Or.inr (Or.inl hst)) hinv
  case SPI_ACMD =>
    exact inv_accept_default sd b (Or.inr (Or.inr (Or.inl hst))) hinv
  case IDLE =>
    exact inv_accept_default sd b (Or.inr (Or.inr (Or.inr (Or.inl hst)))) hinv
  case IDLE_ACMD =>
    exact inv_accept_default sd b
      (Or.inr (Or.inr (Or.inr (Or.inr (Or.inl hst))))) hinv
  case READ_BLOCK =>
    exact inv_accept_default sd b
      (Or.inr (Or.inr (Or.inr (Or.inr (Or.inr hst))))) hinv
  case WRITE_STBT =>
    have hafter : sd.after_send_state = IDLE := h14 (Or.inr (Or.inl hst))
    have hsidx0 : sd.send_idx = 0 := by
      apply h5
      rw [hst]
      exact fun hx => SdState.noConfusion hx
    have hact := h13 (Or.inl (Or.inr (Or.inl hst)))
    simp only [accept_byte, hst]
    split_ifs with htok
    · refine ⟨h1, h2, h3, fun hx => absurd hx (by simp), fun _ => hsidx0, h6,
          h7, h8, h9, h10, h11, h12, ?_, fun _ => hafter⟩
      rintro (hact2 | ⟨heq, _⟩)
      · exact hact
      · exact absurd heq (by simp)
    · exact hinv
  case WRITE_LISTEN =>
    have hafter : sd.after_send_state = IDLE :=
      h14 (Or.inr (Or.inr (Or.inl hst)))
    have hsidx0 : sd.send_idx = 0 := by
      apply h5
      rw [hst]
      exact fun hx => SdState.noConfusion hx
    obtain ⟨hb1, hb2⟩ := h13 (Or.inl (Or.inr (Or.inr hst)))
    simp only [accept_byte, hst]
    split_ifs with hfull
    · have hfull' : sd.bytes_xfrd + 1 = 512 := hfull
      refine ⟨h1, h2, h3, fun hx => absurd hx (by simp), fun _ => hsidx0, h6,
          (by omega : sd.bytes_xfrd + 1 ≤ 512),
          (by omega : sd.head + 1 ≤ sd.capacity),
          h9, h10, h11, h12, ?_, fun _ => hafter⟩
      rintro (hact2 | ⟨heq, _⟩)
      · rcases hact2 with hx | hx | hx <;> exact absurd hx (by simp)
      · exact absurd heq (by simp)
    · have hfull' : sd.bytes_xfrd + 1 ≠ 512 := hfull
      refine ⟨h1, h2, h3, fun hx => absurd hx (by simp), fun _ => hsidx0, h6,
          (by omega : sd.bytes_xfrd + 1 ≤ 512),
          (by omega : sd.head + 1 ≤ sd.capacity),
          h9, h10, h11, h12, ?_, fun _ => hafter⟩
      rintro (hact2 | ⟨heq, _⟩)
      · exact ⟨(by omega : sd.bytes_xfrd + 1 < 512),
               (by omega : sd.head + 1 + (512 - (sd.bytes_xfrd + 1)) ≤
                  sd.capacity)⟩
      · exact absurd heq (by simp)
  case WRITE_CRC =>
    have hafter : sd.after_send_state = IDLE :=
      h14 (Or.inr (Or.inr (Or.inr hst)))
    have hsidx0 : sd.send_idx = 0 := by
      apply h5
      rw [hst]
      exact fun hx => SdState.noConfusion hx
    have inv_plain : Inv { sd with state := WRITE_CRC, after_send_state := IDLE,
                                   crc16_fst := false } := by
      refine ⟨h1, h2, h3, fun hx => absurd hx (by simp), fun _ => hsidx0, h6,
          h7, h8, h9, fun hx => SdState.noConfusion hx,
          fun hx => SdState.noConfusion hx, fun hx => SdState.noConfusion hx,
          ?_, fun _ => rfl⟩
      rintro (hact2 | ⟨heq, _⟩)
      · rcases hact2 with hx | hx | hx <;> exact absurd hx (by simp)
      · exact absurd heq (by simp)
    have inv_resp : ∀ v : Nat,
        Inv { sd with after_send_state := IDLE, crc16_fst := false,
                      send := upd sd.send 0 v, send_len := 1,
                      state := CMD_RESPONSE } := by
      intro v
      refine ⟨h1, h2, (by omega : (1 : Nat) ≤ 6),
          fun _ => (by omega : sd.send_idx < 1), fun hne => absurd rfl hne, h6,
          h7, h8, h9, fun hx => SdState.noConfusion hx,
          fun hx => SdState.noConfusion hx, fun hx => SdState.noConfusion hx,
          ?_, ?_⟩
      · rintro (hact2 | ⟨_, hact2⟩)
        · rcases hact2 with hx | hx | hx <;> exact absurd hx (by simp)
        · rcases hact2 with hx | hx | hx <;> exact absurd hx (by simp)
      · rintro (hx | hx | hx | hx) <;> exact absurd hx (by simp)
    simp only [accept_byte, enqueue_r1_inner, hst]
    split_ifs <;>
      first
      | exact inv_plain
      | exact inv_resp 0x05
      | exact inv_resp 0x0b
  case CMD_RESPONSE =>
    simp only [accept_byte, sd_reset, hst]
    split_ifs with herr
    · refine ⟨h1, h2, (by omega : (0 : Nat) ≤ 6), fun hx => absurd hx (by simp),
          fun _ => rfl, (by omega : (0 : Nat) ≤ 5), h7, h8, rfl, h10, h11, h12,
          ?_, ?_⟩
      · rintro (hact2 | ⟨heq, _⟩)
        · rcases hact2 with hx | hx | hx <;> exact absurd hx (by simp)
        · exact absurd heq (by simp)
      · rintro (hx | hx | hx | hx) <;> exact absurd hx (by simp)
    · exact hinv

theorem inv_sd_event (sd : Sd) (e : SdEvent) (hinv : Inv sd) :
    Inv (sd_event sd e) := by
  cases e with
  | spi v =>
    simp only [sd_event, spi_hook]
    split_ifs with hcs
    · exact hinv
    · exact inv_accept_byte _ _ (inv_send_byte sd hinv)
  | cs v =>
    obtain ⟨h1, h2, h3, h4, h5, h6, h7, h8, h9, h10, h11, h12, h13, h14⟩ := hinv
    exact ⟨h1, h2, h3, h4, h5, h6, h7, h8, h9, h10, h11, h12, h13, h14⟩

theorem inv_runEvents (sd : Sd) (evs : List SdEvent) (hinv : Inv sd) :
    Inv (runEvents sd evs) := by
  induction evs generalizing sd with
  | nil => exact hinv
  | cons e es ih => exact ih (sd_event sd e) (inv_sd_event sd e hinv)

theorem inv_sd_fresh (m : Nat → Nat) (cap : Nat) (h512 : 512 ≤ cap)
    (h64 : cap < 18446744073709551616) : Inv (sd_fresh m cap) := by
  refine ⟨h512, h64, (by omega : (0 : Nat) ≤ 6),
      fun hx => absurd hx (by simp [sd_fresh, sd_reset]),
      fun _ => rfl, (by omega : (0 : Nat) ≤ 5), (by omega : (0 : Nat) ≤ 512),
      (by omega : (0 : Nat) ≤ cap), rfl,
      fun hx => SdState.noConfusion hx, fun hx => SdState.noConfusion hx,
      fun hx => SdState.noConfusion hx, ?_, ?_⟩
  · rintro (hact2 | ⟨heq, _⟩)
    · rcases hact2 with hx | hx | hx <;>
        exact absurd hx (by simp [sd_fresh, sd_reset])
    · exact absurd heq (by simp [sd_fresh, sd_reset])
  · rintro (hx | hx | hx | hx) <;> exact absurd hx (by simp [sd_fresh, sd_reset])

/-- C2 counterexample: sd_init performs no capacity check, so a freshly
initialized 100-byte card is possible; booting it and issuing CMD17 with
argument 0x1000 passes the size_t-wrapped address check
(capacity - 512 underflows) and leaves head = 4096 > capacity = 100, so the
claimed invariant 0 <= head - mass <= capacity fails as stated. -/
theorem claim2_counterexample :
    (sd_fresh (fun _ => 0) 100).capacity = 100 ∧
    (runEvents (sd_fresh (fun _ => 0) 100) small_image_events).capacity = 100 ∧
    (runEvents (sd_fresh (fun _ => 0) 100) small_image_events).head = 4096 :=
  ⟨rfl, rfl, rfl⟩

/-- C2 (amended): for every sequence of SPI-byte and CS-change events applied
to a freshly initialized card whose capacity is at least one block (512) and
below 2^64, after every event send_idx <= send_len, cmd_idx <= 6,
bytes_xfrd <= 512 and head <= capacity. The capacity premises are necessary:
see the counterexample on a 100-byte image. -/
theorem claim2_bounded (m : Nat → Nat) (cap : Nat) (h512 : 512 ≤ cap)
    (h64 : cap < 18446744073709551616) (evs : List SdEvent) :
    (runEvents (sd_fresh m cap) evs).send_idx ≤
      (runEvents (sd_fresh m cap) evs).send_len ∧
    (runEvents (sd_fresh m cap) evs).cmd_idx ≤ 6 ∧
    (runEvents (sd_fresh m cap) evs).bytes_xfrd ≤ 512 ∧
    (runEvents (sd_fresh m cap) evs).head ≤
      (runEvents (sd_fresh m cap) evs).capacity := by
  obtain ⟨h1, h2, h3, h4, h5, h6, h7, h8, _⟩ :=
    inv_runEvents _ evs (inv_sd_fresh m cap h512 h64)
  refine ⟨?_, by omega, by omega, h8⟩
  by_cases hcr : (runEvents (sd_fresh m cap) evs).state = CMD_RESPONSE
  · have := h4 hcr
    omega
  · have := h5 hcr
    omega

/-- C2 witness: the bounded-buffers theorem applied to a 512-byte image and a
concrete two-event sequence. -/
theorem claim2_witness :
    512 ≤ (512 : Nat) ∧ (512 : Nat) < 18446744073709551616 ∧
    ((runEvents (sd_fresh (fun _ => 0) 512) [SdEvent.cs 0,
        SdEvent.spi 0x40]).send_idx ≤
       (runEvents (sd_fresh (fun _ => 0) 512) [SdEvent.cs 0,
        SdEvent.spi 0x40]).send_len ∧
     (runEvents (sd_fresh (fun _ => 0) 512) [SdEvent.cs 0,
        SdEvent.spi 0x40]).cmd_idx ≤ 6 ∧
     (runEvents (sd_fresh (fun _ => 0) 512) [SdEvent.cs 0,
        SdEvent.spi 0x40]).bytes_xfrd ≤ 512 ∧
     (runEvents (sd_fresh (fun _ => 0) 512) [SdEvent.cs 0,
        SdEvent.spi 0x40]).head ≤
       (runEvents (sd_fresh (fun _ => 0) 512) [SdEvent.cs 0,
        SdEvent.spi 0x40]).capacity) :=
  ⟨by omega, by decide,
   claim2_bounded (fun _ => 0) 512 (by omega) (by decide)
     [SdEvent.cs 0, SdEvent.spi 0x40]⟩

/-- C6 witness: the read-CRC theorem at a concrete READ_BLOCK card. -/
theorem claim6_witness :
    (mkCard READ_BLOCK).cs = true ∧ (mkCard READ_BLOCK).state = READ_BLOCK ∧
    (mkCard READ_BLOCK).crc16 = 0xFFFF ∧
    (runSpi (mkCard READ_BLOCK) (List.replicate 514 0xFF)).1 =
      read_bytes (mkCard READ_BLOCK).mass (mkCard READ_BLOCK).head 512 ++
      [((read_bytes (mkCard READ_BLOCK).mass (mkCard READ_BLOCK).head 512).foldl
          crc16_byte 0xFFFF) >>> 8,
       ((read_bytes (mkCard READ_BLOCK).mass (mkCard READ_BLOCK).head 512).foldl
          crc16_byte 0xFFFF) &&& 0xFF] :=
  ⟨rfl, rfl, rfl,
   claim6_read_crc (mkCard READ_BLOCK) rfl rfl rfl rfl rfl rfl rfl⟩

/-- C1 witness: the round-trip theorem instantiated at a concrete card,
address 0 and the 512-byte block of 7s. -/
theorem claim1_witness :
    (mkCard IDLE).cs = true ∧ (mkCard IDLE).state = IDLE ∧
    (0 : Nat) % 512 = 0 ∧ (List.replicate 512 7).length = 512 ∧
    0 + 512 ≤ (mkCard IDLE).capacity ∧
    (((runSpi (mkCard IDLE)
        (roundtrip_events 0 (List.replicate 512 7) 0x95 0x55 0xFF 0xFF)).1 =
       [0xFF, 0xFF, 0xFF, 0xFF, 0xFF, 0xFF, 0x00, 0xFF] ++
       List.replicate 512 0xFF ++
       [0x05, 0x05, 0x05, 0xFF, 0xFF, 0xFF, 0xFF, 0xFF, 0xFF, 0x00, 0xFE] ++
       List.replicate 512 7 ++
       [((List.replicate 512 7).foldl crc16_byte 0xFFFF) >>> 8,
        ((List.replicate 512 7).foldl crc16_byte 0xFFFF) &&& 0xFF]) ∧
     (∀ i, i < 0 ∨ 0 + 512 ≤ i →
        (runSpi (mkCard IDLE)
          (roundtrip_events 0 (List.replicate 512 7) 0x95 0x55 0xFF 0xFF)).2.mass
            i = (mkCard IDLE).mass i) ∧
     (runSpi (mkCard IDLE)
        (roundtrip_events 0 (List.replicate 512 7) 0x95 0x55 0xFF 0xFF)).2.state =
       IDLE) :=
  ⟨rfl, rfl, by decide, by simp, by decide,
   claim1_roundtrip (mkCard IDLE) 0 (List.replicate 512 7) 0x95 0x55 0xFF 0xFF
     rfl rfl rfl rfl (by decide) (by decide) (by decide) (by decide) (by simp)
     (fun b hb => by rw [List.eq_of_mem_replicate hb]; omega)
     (by decide) (by decide)⟩

end SdCard
